import Mathlib

/-!
Verification of the kvmd-tablet-mode input-gesture engine.

Shallow embedding of:
  * the jog-shuttle scroll widget (src/js/ui/mouse-panel.js, class ScrollWidget),
  * the absolute-coordinate remap (src/js/input/mouse.js, function _remap and
    MouseHandler._sendPlannedMove),
  * the zoom/pan controller (src/unnamed/part_006, class ZoomController),
  * the touch gesture recognizer (src/js/input/mouse.js, class MouseHandler).

Numbers are modelled by ℚ (the JS code computes with IEEE doubles; all the
branch conditions and emitted values of interest are exact rational
computations on the modelled inputs).  Stateful classes become explicit state
records with step functions over event types; HID emissions are collected in
lists.  JS setTimeout timers are modelled as optional deadlines in the state,
with dedicated fire events that are no-ops before the deadline; the fixed
50 ms button-release timeouts carry no cancellation path in the source, so a
down/up pulse is emitted as an adjacent pair.
-/

namespace KvmdTablet

/-- JavaScript Math.round: round to the nearest integer, halves toward +∞. -/
def jsRound (q : ℚ) : ℤ := ⌊q + 1/2⌋

/-- A 2-D point (content-space or screen-space coordinates). -/
structure Pos where
  x : ℚ
  y : ℚ
deriving DecidableEq, Repr

/-- Squared Euclidean distance.  The source compares
Math.sqrt(dx*dx+dy*dy) against a nonnegative threshold c, which is
equivalent to comparing this value against c^2. -/
def distSq (a b : Pos) : ℚ := (a.x - b.x)^2 + (a.y - b.y)^2

/-- A HID emission handed to KvmdWebSocket (src/js/websocket.js).  The
websocket layer is fire-and-forget and does not alter the values. -/
inductive Hid where
  | buttonDown (name : String)
  | buttonUp (name : String)
  | moveAbs (x y : ℚ)
  | moveRel (dx dy : ℤ)
  | wheel (dx dy : ℚ)
deriving DecidableEq, Repr

/-- True exactly for wheel emissions. -/
def Hid.isWheel : Hid → Prop
  | Hid.wheel _ _ => True
  | _ => False

/-- True exactly for button (down or up) emissions. -/
def Hid.isButton : Hid → Prop
  | Hid.buttonDown _ => True
  | Hid.buttonUp _ => True
  | _ => False

instance : DecidablePred Hid.isWheel := by
  intro h
  cases h <;> simp [Hid.isWheel] <;> infer_instance

instance : DecidablePred Hid.isButton := by
  intro h
  cases h <;> simp [Hid.isButton] <;> infer_instance

/-! ## ScrollWidget (src/js/ui/mouse-panel.js)

The jog-shuttle scroll engine.  Presets from the PRESETS table; the widget
state and handlers are translated from the class body. -/

/-- A scroll preset: {deadZone, firstTick, minInterval, units}. -/
structure Preset where
  deadZone : ℚ
  firstTick : ℚ
  minInterval : ℚ
  units : ℤ
deriving DecidableEq, Repr

def presetFine : Preset := ⟨18, 35, 200, 1⟩
def presetNormal : Preset := ⟨12, 25, 150, 2⟩
def presetFast : Preset := ⟨8, 18, 100, 4⟩

/-- MAX_INTERVAL = 300 ms, the slowest repeat rate. -/
def maxIntervalMs : ℚ := 300

/-- RAMP_DURATION = 1000 ms for the time-based acceleration. -/
def rampDurationMs : ℚ := 1000

/-- ScrollWidget._computeInterval, as a function of the preset, the track
half-length, |this._displacement| and (Date.now() − this._repeatStartTime). -/
def computeInterval (preset : Preset) (trackHalf absDist elapsed : ℚ) : ℚ :=
  let range := trackHalf - preset.firstTick
  let distFrac0 := if range > 0 then min 1 ((absDist - preset.firstTick) / range) else 0
  let distFrac := distFrac0 * distFrac0
  let distInterval := maxIntervalMs - distFrac * (maxIntervalMs - preset.minInterval)
  let timeFrac0 := min 1 (elapsed / rampDurationMs)
  let timeFrac := timeFrac0 * timeFrac0
  let timeInterval := maxIntervalMs - timeFrac * (maxIntervalMs - preset.minInterval)
  max preset.minInterval (min distInterval timeInterval)

/-- Live state of a ScrollWidget. -/
structure ScrollState where
  preset : Preset
  macMode : Bool
  centerY : ℚ
  trackHalf : ℚ
  displacement : ℚ
  direction : ℤ
  active : Bool
  /-- whether a this._repeatTimer timeout is pending -/
  repeatTimer : Bool
  repeatStartTime : ℚ
  tickCount : ℕ
deriving DecidableEq, Repr

/-- Constructor state of ScrollWidget (geometry not yet measured). -/
def scrollInit (preset : Preset) (macMode : Bool) : ScrollState :=
  { preset := preset, macMode := macMode, centerY := 0, trackHalf := 0,
    displacement := 0, direction := 0, active := false, repeatTimer := false,
    repeatStartTime := 0, tickCount := 0 }

/-- ScrollWidget._fireTick: emit one wheel tick (mac mode: a burst of three
boosted events; the two 10 ms-delayed burst sends are never cancelled, so they
are listed adjacently). -/
def fireTick (s : ScrollState) : ScrollState × List Hid :=
  let units := s.direction * s.preset.units
  let out :=
    if s.macMode then
      let boosted := units * 3
      [Hid.wheel 0 (boosted : ℚ), Hid.wheel 0 (boosted : ℚ), Hid.wheel 0 (boosted : ℚ)]
    else [Hid.wheel 0 (units : ℚ)]
  ({ s with tickCount := s.tickCount + 1 }, out)

/-- The clamped displacement computed at the top of _updateFromTouch. -/
def clampedDisp (s : ScrollState) (clientY : ℚ) : ℚ :=
  max (-s.trackHalf) (min s.trackHalf (clientY - s.centerY))

/-- The source's newDir expression: clamped > 0 ? 1 : -1. -/
def newDirOf (clamped : ℚ) : ℤ := if clamped > 0 then 1 else -1

/-- The direction-reversal block of _updateFromTouch: on a direction change,
reset the tick counter and acceleration and cancel the pending repeat. -/
def reversedState (s1 : ScrollState) (newDir : ℤ) : ScrollState :=
  if newDir ≠ s1.direction then
    { s1 with direction := newDir, tickCount := 0, repeatTimer := false }
  else s1

/-- ScrollWidget._updateFromTouch (now = Date.now() at the call). -/
def updateFromTouch (s : ScrollState) (clientY now : ℚ) : ScrollState × List Hid :=
  let clamped := clampedDisp s clientY
  let s1 := { s with displacement := clamped }
  let absDist := |clamped|
  if absDist < s1.preset.deadZone then
    ({ s1 with repeatTimer := false, direction := 0 }, [])
  else
    let s2 := reversedState s1 (newDirOf clamped)
    if s2.preset.firstTick ≤ absDist ∧ s2.repeatTimer = false then
      ({ (fireTick s2).1 with repeatStartTime := now, repeatTimer := true },
       (fireTick s2).2)
    else (s2, [])

/-- Events delivered to a ScrollWidget. -/
inductive SEvent where
  /-- single-touch touchstart: widget bounds are measured, then
  _updateFromTouch runs on the touch -/
  | touchStart (rectTop rectHeight clientY now : ℚ)
  /-- touchmove while tracking -/
  | touchMove (clientY now : ℚ)
  /-- the pending _repeatTimer timeout fires -/
  | timerFire (now : ℚ)
  /-- touchend / touchcancel -/
  | touchEnd
deriving Repr

/-- One event step of ScrollWidget. -/
def sstep (s : ScrollState) (e : SEvent) : ScrollState × List Hid :=
  match e with
  | SEvent.touchStart rectTop rectHeight clientY now =>
      let s1 := { s with centerY := rectTop + rectHeight / 2,
                         trackHalf := rectHeight / 2 - 16,
                         active := true, tickCount := 0 }
      updateFromTouch s1 clientY now
  | SEvent.touchMove clientY now =>
      if s.active then updateFromTouch s clientY now else (s, [])
  | SEvent.timerFire _now =>
      if s.repeatTimer then
        let s1 := { s with repeatTimer := false }
        if s1.active = false ∨ s1.direction = 0 then (s1, [])
        else ({ (fireTick s1).1 with repeatTimer := true }, (fireTick s1).2)
      else (s, [])
  | SEvent.touchEnd =>
      ({ s with active := false, displacement := 0, direction := 0,
                repeatTimer := false }, [])

/-- Run a ScrollWidget over a list of events, collecting emissions. -/
def srun (s : ScrollState) (evs : List SEvent) : ScrollState × List Hid :=
  evs.foldl (fun acc e =>
    let r := sstep acc.1 e
    (r.1, acc.2 ++ r.2)) (s, [])

/-- The state after a list of events (the first component of srun). -/
def sruns (s : ScrollState) (evs : List SEvent) : ScrollState :=
  evs.foldl (fun s e => (sstep s e).1) s

/-- Reachable ScrollWidget states. -/
def SReachable (s : ScrollState) : Prop :=
  ∃ preset macMode evs, sruns (scrollInit preset macMode) evs = s

/-! ## ZoomController (src/unnamed/part_006)

Two-finger events are abstracted to the derived quantities the handlers
consume: the inter-finger distance (the value of _dist, i.e. the Euclidean
norm — every nonnegative value is realizable by some touch pair) and the
midpoint (_midpoint).  DOM metrics (offsetWidth/offsetHeight and
getBoundingClientRect) are carried on the events that read them. -/

/-- The derived data of a two-finger contact: dist = _dist(t0,t1) ≥ 0 and
the midpoint _midpoint(t0,t1). -/
structure ZTouch where
  dist : ℚ
  midX : ℚ
  midY : ℚ
deriving DecidableEq, Repr

/-- DOM metrics read by the zoom handlers: container offsetWidth/offsetHeight
and the transformed bounding rect origin. -/
structure ZView where
  viewW : ℚ
  viewH : ℚ
  rectLeft : ℚ
  rectTop : ℚ
deriving DecidableEq, Repr

/-- PINCH_THRESHOLD = 15 px. -/
def pinchThreshold : ℚ := 15

/-- State of a ZoomController. -/
structure ZState where
  zoomed : Bool
  scale : ℚ
  translateX : ℚ
  translateY : ℚ
  isPanning : Bool
  panStartMidX : ℚ
  panStartMidY : ℚ
  panStartTX : ℚ
  panStartTY : ℚ
  pinchStartDist : ℚ
  pinchStartScale : ℚ
  pinchStartTX : ℚ
  pinchStartTY : ℚ
  pinchFocalX : ℚ
  pinchFocalY : ℚ
  isPinching : Bool
  gestureUndecided : Bool
  isScroll : Bool
  undecidedMidX : ℚ
  undecidedMidY : ℚ
deriving DecidableEq, Repr

/-- Constructor state of ZoomController. -/
def zinit : ZState :=
  { zoomed := false, scale := 1, translateX := 0, translateY := 0,
    isPanning := false, panStartMidX := 0, panStartMidY := 0,
    panStartTX := 0, panStartTY := 0, pinchStartDist := 0,
    pinchStartScale := 1, pinchStartTX := 0, pinchStartTY := 0,
    pinchFocalX := 0, pinchFocalY := 0, isPinching := false,
    gestureUndecided := false, isScroll := false,
    undecidedMidX := 0, undecidedMidY := 0 }

/-- ZoomController._clampTranslation. -/
def clampTranslation (viewW viewH : ℚ) (s : ZState) : ZState :=
  let maxTX := viewW * (s.scale - 1) / 2
  let maxTY := viewH * (s.scale - 1) / 2
  { s with translateX := max (-maxTX) (min maxTX s.translateX),
           translateY := max (-maxTY) (min maxTY s.translateY) }

/-- ZoomController.resetZoom. -/
def resetZoomZ (s : ZState) : ZState :=
  { s with scale := 1, translateX := 0, translateY := 0, zoomed := false }

/-- ZoomController.zoomToNative (realW/realH = stream resolution,
viewW/viewH = container offsetWidth/offsetHeight).  The source returns early
on a falsy resolution; the source's 1/fitScale with fitScale = 0 (possible
only for a zero-sized container) is an IEEE infinity, which the early return
`nativeScale ≤ 1.05` of this ℚ model conservatively treats as a no-op. -/
def zoomToNativeZ (s : ZState) (realW realH viewW viewH : ℚ) : ZState :=
  if realW = 0 ∨ realH = 0 then s
  else
    let fitScale := min (viewW / realW) (viewH / realH)
    let nativeScale := 1 / fitScale
    if nativeScale ≤ 21/20 then s
    else
      { s with scale := nativeScale, translateX := 0, translateY := 0,
               zoomed := true }

/-- ZoomController._handleTouchStart with exactly two touches. -/
def handleZStart2 (t : ZTouch) (s : ZState) : ZState :=
  { s with pinchStartDist := t.dist, pinchStartScale := s.scale,
           pinchStartTX := s.translateX, pinchStartTY := s.translateY,
           gestureUndecided := true, isScroll := false, isPinching := false,
           isPanning := false, undecidedMidX := t.midX,
           undecidedMidY := t.midY }

/-- The still-undecided classification block of _handleTouchMove: decide
pinch when the inter-finger distance changed by more than PINCH_THRESHOLD,
otherwise pan (zoomed) or scroll (unzoomed) when the midpoint moved more
than 10 px on either axis, otherwise stay undecided. -/
def classifyZ (t : ZTouch) (v : ZView) (s : ZState) : ZState :=
  if s.gestureUndecided then
    if |t.dist - s.pinchStartDist| > pinchThreshold then
      { s with gestureUndecided := false, isPinching := true,
               isScroll := false,
               pinchFocalX := (t.midX - v.rectLeft) / s.pinchStartScale,
               pinchFocalY := (t.midY - v.rectTop) / s.pinchStartScale }
    else
      if |t.midX - s.undecidedMidX| > 10 ∨ |t.midY - s.undecidedMidY| > 10 then
        if s.zoomed then
          { s with gestureUndecided := false, isPinching := false,
                   isPanning := true, isScroll := false,
                   panStartMidX := t.midX, panStartMidY := t.midY,
                   panStartTX := s.translateX, panStartTY := s.translateY }
        else
          { s with gestureUndecided := false, isPinching := false,
                   isScroll := true }
      else s
  else s

/-- The pan branch of _handleTouchMove: translate follows the midpoint delta
from the pan anchor, then is clamped. -/
def panUpdate (t : ZTouch) (v : ZView) (s1 : ZState) : ZState :=
  clampTranslation v.viewW v.viewH
    { s1 with translateX := s1.panStartTX + (t.midX - s1.panStartMidX),
              translateY := s1.panStartTY + (t.midY - s1.panStartMidY) }

/-- The pinch branch of _handleTouchMove: scale by the distance ratio,
clamped into [1,4]; shift the translation to keep the focal point fixed;
recompute zoomed; clamp the translation.  When pinchStartDist = 0 the JS
ratio is an IEEE infinity whose product is clamped to 4; the ℚ ratio is 0
and is clamped to 1 — both land inside [1,4]. -/
def pinchUpdate (t : ZTouch) (v : ZView) (s1 : ZState) : ZState :=
  let ratio := t.dist / s1.pinchStartDist
  let newScale := max 1 (min (s1.pinchStartScale * ratio) 4)
  let cx := v.viewW / 2
  let cy := v.viewH / 2
  clampTranslation v.viewW v.viewH
    { s1 with
      translateX := s1.pinchStartTX + (s1.pinchFocalX - cx) * (s1.pinchStartScale - newScale),
      translateY := s1.pinchStartTY + (s1.pinchFocalY - cy) * (s1.pinchStartScale - newScale),
      scale := newScale,
      zoomed := decide (newScale > 21/20) }

/-- ZoomController._handleTouchMove with exactly two touches. -/
def handleZMove2 (t : ZTouch) (v : ZView) (s : ZState) : ZState :=
  if s.gestureUndecided = false ∧ s.isPinching = false ∧ s.isScroll = false ∧
      s.isPanning = false then s
  else
    let s1 := classifyZ t v s
    if s1.gestureUndecided then s1
    else if s1.isScroll then s1
    else if s1.isPanning then panUpdate t v s1
    else if s1.isPinching then pinchUpdate t v s1
    else s1

/-- ZoomController._handleTouchEnd when fewer than two touches remain. -/
def handleZEnd (v : ZView) (s : ZState) : ZState :=
  let wasPinching := s.isPinching
  let wasPanning := s.isPanning
  let s1 := { s with isPinching := false, isPanning := false,
                     gestureUndecided := false, isScroll := false }
  let s2 :=
    if wasPinching then
      if s1.scale < 21/20 then resetZoomZ s1
      else clampTranslation v.viewW v.viewH s1
    else s1
  if wasPanning then clampTranslation v.viewW v.viewH s2 else s2

/-- Events delivered to a ZoomController. -/
inductive ZEvent where
  /-- touchstart with exactly two touches -/
  | start2 (t : ZTouch)
  /-- touchmove with exactly two touches -/
  | move2 (t : ZTouch) (v : ZView)
  /-- touchend leaving fewer than two touches -/
  | endBelow2 (v : ZView)
  /-- touchend leaving two or more touches: no branch taken -/
  | endAtLeast2
  /-- touchstart/touchmove with one or with three-plus touches: early return -/
  | ignoredTouch
  /-- the zoomToNative entry point (toggle button when unzoomed) -/
  | native (realW realH viewW viewH : ℚ)
  /-- the resetZoom entry point (toggle button when zoomed) -/
  | reset
deriving Repr

/-- One event step of ZoomController. -/
def zstep (s : ZState) (e : ZEvent) : ZState :=
  match e with
  | ZEvent.start2 t => handleZStart2 t s
  | ZEvent.move2 t v => handleZMove2 t v s
  | ZEvent.endBelow2 v => handleZEnd v s
  | ZEvent.endAtLeast2 => s
  | ZEvent.ignoredTouch => s
  | ZEvent.native rw rh vw vh => zoomToNativeZ s rw rh vw vh
  | ZEvent.reset => resetZoomZ s

/-- Run a ZoomController over a list of events. -/
def zrun (s : ZState) (evs : List ZEvent) : ZState :=
  evs.foldl zstep s

/-- Reachable ZoomController states. -/
def ZReachable (s : ZState) : Prop := ∃ evs, zrun zinit evs = s

/-- The two-finger classification has been decided. -/
def ZState.zdecided (s : ZState) : Prop :=
  s.isPinching = true ∨ s.isPanning = true ∨ s.isScroll = true

/-- Structural invariant of ZoomController states: the scale never drops
below 1, an undecided gesture carries no decided flag, and the decided
flags are mutually exclusive. -/
def ZInv (s : ZState) : Prop :=
  1 ≤ s.scale ∧
  (s.gestureUndecided = true →
    s.isPinching = false ∧ s.isPanning = false ∧ s.isScroll = false) ∧
  (s.isScroll = true → s.isPinching = false ∧ s.isPanning = false) ∧
  (s.isPanning = true → s.isPinching = false)

/-- Events that keep the finger count at two or more (neither a fresh
two-finger touchstart nor a touchend dropping below two fingers). -/
def zNonBoundary : ZEvent → Prop
  | ZEvent.start2 _ => False
  | ZEvent.endBelow2 _ => False
  | _ => True

/-! ## MouseHandler (src/js/input/mouse.js) -/

/-- The pointer mode union "absolute" | "relative". -/
inductive Mode where
  | absolute
  | relative
deriving DecidableEq, Repr

/-- Stream geometry returned by _getStreamGeometry (x/y = letterbox origin,
width/height = displayed size). -/
structure Geo where
  x : ℚ
  y : ℚ
  width : ℚ
  height : ℚ
deriving DecidableEq, Repr

/-- function _remap (bottom of mouse.js): linear remap with the zero divisor
replaced by 1 (the JS `|| 1`), Math.round, then clamp to [outMin, outMax]. -/
def remap (value inMin inMax outMin outMax : ℚ) : ℚ :=
  let d := inMax - inMin
  let result : ℤ := jsRound ((value - inMin) * (outMax - outMin) / (if d = 0 then 1 else d) + outMin)
  min (max (result : ℚ) outMin) outMax

/-- Modelled from the spec: the per-axis absolute-coordinate mapping —
"content position within the displayed media rectangle is linearly remapped
to the full −32768..32767 axis, independently per axis, clamped to that
range": the linear remap of (p − origin) from the span [0, extent−1] onto
[−32768, 32767], rounded, then clamped (degenerate spans divide by 1,
cf. claim C9). -/
def specAxisRemap (p origin extent : ℚ) : ℚ :=
  let span := extent - 1
  let raw := (p - origin) * (32767 - (-32768)) / (if span = 0 then 1 else span) + (-32768)
  min (max ((jsRound raw : ℚ)) (-32768)) 32767

/-- getBoundingClientRect of the stream container. -/
structure Rect where
  left : ℚ
  top : ℚ
  width : ℚ
  height : ℚ
deriving DecidableEq, Repr

/-- MouseHandler._screenToContainerPos: undo the viewport transform.  The
zoomed branch divides the in-rect offset by the zoom scale; both branches
Math.round the result. -/
def screenToContainerPos (rect : Rect) (zoomed : Bool) (scale : ℚ)
    (screenX screenY : ℚ) : Pos :=
  if zoomed then
    ⟨(jsRound ((screenX - rect.left) / scale) : ℚ),
     (jsRound ((screenY - rect.top) / scale) : ℚ)⟩
  else
    ⟨(jsRound (screenX - rect.left) : ℚ), (jsRound (screenY - rect.top) : ℚ)⟩

/-- State of a MouseHandler.  Pending setTimeout timers are stored as their
deadlines (scheduling time + delay); the corresponding fire event is a no-op
before the deadline. -/
structure MState where
  mode : Mode
  enabled : Bool
  sensitivity : ℚ
  scrollSensitivity : ℚ
  absPos : Option Pos
  relTouchStart : Option Pos
  touchStartTime : ℚ
  touchStartPos : Option Pos
  touchMoved : Bool
  lastTapTime : ℚ
  lastTapPos : Option Pos
  singleTapTimer : Option ℚ
  longPressTimer : Option ℚ
  longPressFired : Bool
  isDragging : Bool
  dragHoldTimer : Option ℚ
  isSecondTapDown : Bool
  twoFingerTapDetected : Bool
  twoFingerStartTime : ℚ
  twoFingerMoved : Bool
  scrollAnchor : Option Pos
deriving DecidableEq, Repr

/-- Constructor state of MouseHandler, at a given mode (defaults:
sensitivity 1, scrollSensitivity 2, enabled). -/
def minit (mode : Mode) : MState :=
  { mode := mode, enabled := true, sensitivity := 1, scrollSensitivity := 2,
    absPos := none, relTouchStart := none, touchStartTime := 0,
    touchStartPos := none, touchMoved := false, lastTapTime := 0,
    lastTapPos := none, singleTapTimer := none, longPressTimer := none,
    longPressFired := false, isDragging := false, dragHoldTimer := none,
    isSecondTapDown := false, twoFingerTapDetected := false,
    twoFingerStartTime := 0, twoFingerMoved := false, scrollAnchor := none }

/-- MouseHandler._sendPlannedMove: in absolute mode with a planned position
and available stream geometry, remap and emit, consuming the position. -/
def sendPlannedMove (s : MState) (geo : Option Geo) : MState × List Hid :=
  match s.mode, s.absPos, geo with
  | Mode.absolute, some p, some g =>
      ({ s with absPos := none },
       [Hid.moveAbs (remap (p.x - g.x) 0 (g.width - 1) (-32768) 32767)
                    (remap (p.y - g.y) 0 (g.height - 1) (-32768) 32767)])
  | _, _, _ => (s, [])

/-- MouseHandler._resetState. -/
def resetState (s : MState) : MState :=
  { s with relTouchStart := none, touchStartPos := none,
           twoFingerTapDetected := false, scrollAnchor := none }

/-- The tail of the single-touch touchstart handler: record the position for
the current mode and (absolute mode) flush it. -/
def startFinish (s : MState) (pos : Pos) (geo : Option Geo) : MState × List Hid :=
  if s.mode = Mode.absolute then sendPlannedMove { s with absPos := some pos } geo
  else ({ s with relTouchStart := some pos }, [])

/-- MouseHandler._handleTouchStart with one touch (pos = _getTouchPos of the
touch, t = Date.now()). -/
def handleStart1 (pos : Pos) (t : ℚ) (zoom : Bool) (geo : Option Geo)
    (s : MState) : MState × List Hid :=
  if s.enabled = false ∨ zoom then (s, [])
  else
    let s1 := { s with touchStartTime := t, touchStartPos := some pos,
                       touchMoved := false, longPressFired := false }
    let second : Bool :=
      match s.lastTapPos with
      | some lp =>
          decide (s.lastTapTime ≠ 0) && decide (t - s.lastTapTime < 300) &&
            decide (distSq pos lp < 20 ^ 2)
      | none => false
    if second then
      startFinish { s1 with singleTapTimer := none, isSecondTapDown := true,
                            dragHoldTimer := some (t + 200) } pos geo
    else
      startFinish { s1 with longPressTimer := some (t + 500) } pos geo

/-- MouseHandler._handleTouchStart with two touches (mid = midpoint of the
two client positions; rect/zcZoomed/zcScale feed _screenToContainerPos in
absolute mode). -/
def handleStart2 (mid : Pos) (rect : Rect) (zcZoomed : Bool) (zcScale : ℚ)
    (t : ℚ) (zoom : Bool) (geo : Option Geo) (s : MState) : MState × List Hid :=
  if s.enabled = false ∨ zoom then (s, [])
  else
    let s1 := { s with longPressTimer := none, dragHoldTimer := none,
                       isSecondTapDown := false, twoFingerStartTime := t,
                       twoFingerMoved := false, twoFingerTapDetected := true,
                       scrollAnchor := some mid }
    if s1.mode = Mode.absolute then
      let midPos := screenToContainerPos rect zcZoomed zcScale mid.x mid.y
      sendPlannedMove { s1 with absPos := some midPos } geo
    else (s1, [])

/-- The relative-delta emission shared by the dragging and plain relative
branches of _handleTouchMove: scale by sensitivity, floor, clamp to ±127,
send if nonzero, re-anchor. -/
def relDelta (s : MState) (pos : Pos) : MState × List Hid :=
  match s.relTouchStart with
  | some a =>
      let dx : ℤ := min (max (-127) ⌊(pos.x - a.x) * s.sensitivity⌋) 127
      let dy : ℤ := min (max (-127) ⌊(pos.y - a.y) * s.sensitivity⌋) 127
      let out := if dx ≠ 0 ∨ dy ≠ 0 then [Hid.moveRel dx dy] else []
      ({ s with relTouchStart := some pos }, out)
  | none => (s, [])

/-- The movement-threshold phase of _handleTouchMove with one touch: past
TAP_MAX_DISTANCE, mark moved, enter drag immediately when the second tap of
a double-tap is held, and cancel the long press. -/
def move1Phase1 (pos : Pos) (s : MState) : MState × List Hid :=
  match s.touchStartPos with
  | some sp =>
      if distSq pos sp > 10 ^ 2 then
        let sa := { s with touchMoved := true }
        let enter :=
          if sa.isSecondTapDown = true ∧ sa.isDragging = false then
            ({ sa with isDragging := true, dragHoldTimer := none },
             [Hid.buttonDown "left"])
          else (sa, [])
        ({ enter.1 with longPressTimer := none }, enter.2)
      else (s, [])
  | none => (s, [])

/-- MouseHandler._handleTouchMove with one touch. -/
def handleMove1 (pos : Pos) (zoom : Bool) (s : MState) : MState × List Hid :=
  if s.enabled = false ∨ zoom then (s, [])
  else
    let step1 := move1Phase1 pos s
    let s1 := step1.1
    if s1.isDragging then
      if s1.mode = Mode.absolute then ({ s1 with absPos := some pos }, step1.2)
      else
        let r := relDelta s1 pos
        (r.1, step1.2 ++ r.2)
    else if s1.mode = Mode.absolute then ({ s1 with absPos := some pos }, step1.2)
    else
      let r := relDelta s1 pos
      (r.1, step1.2 ++ r.2)

/-- MouseHandler._handleTouchMove with two touches (mid = midpoint of the two
client positions). -/
def handleMove2 (mid : Pos) (zoom : Bool) (s : MState) : MState × List Hid :=
  if s.enabled = false ∨ zoom then (s, [])
  else
    match s.scrollAnchor with
    | some a =>
        let dx := mid.x - a.x
        let dy := mid.y - a.y
        if |dy| > 5 ∨ |dx| > 5 then
          let sens := s.scrollSensitivity
          let scrollY : ℚ := if |dy| > 5 then (if dy > 0 then sens else -sens) else 0
          let scrollX : ℚ := if |dx| > 5 then (if dx > 0 then sens else -sens) else 0
          ({ s with twoFingerMoved := true, twoFingerTapDetected := false,
                    scrollAnchor := some mid, absPos := none },
           [Hid.wheel scrollX scrollY])
        else ({ s with absPos := none }, [])
    | none => ({ s with absPos := none }, [])

/-- MouseHandler._processTap (t = Date.now() at the touchend): record the tap
for double-tap matching; in relative mode schedule the deferred single-tap
left click after DOUBLE_TAP_WINDOW = 300 ms. -/
def processTap (t : ℚ) (s : MState) : MState :=
  match s.touchStartPos with
  | some p =>
      let s1 := { s with lastTapTime := t, lastTapPos := some p }
      if s1.mode = Mode.relative then { s1 with singleTapTimer := some (t + 300) }
      else s1
  | none => s

/-- MouseHandler._handleTouchEnd (remaining = ev.touches.length,
changed = ev.changedTouches.length, t = Date.now()). -/
def handleEnd (remaining changed : ℕ) (t : ℚ) (zoom : Bool) (geo : Option Geo)
    (s : MState) : MState × List Hid :=
  if s.enabled = false ∨ zoom then (s, [])
  else
    let s1 := { s with longPressTimer := none }
    if remaining = 0 then
      let flush := sendPlannedMove s1 geo
      let s2 := flush.1
      let out0 := flush.2
      if s2.isDragging then
        (resetState { s2 with isDragging := false, isSecondTapDown := false,
                              dragHoldTimer := none, lastTapTime := 0,
                              lastTapPos := none },
         out0 ++ [Hid.buttonUp "left"])
      else if s2.isSecondTapDown then
        (resetState { s2 with isSecondTapDown := false, dragHoldTimer := none,
                              lastTapTime := 0, lastTapPos := none },
         out0 ++ [Hid.buttonDown "left", Hid.buttonUp "left"])
      else if s2.longPressFired then (resetState s2, out0)
      else
        let wasTap := s2.touchMoved = false ∧ t - s2.touchStartTime < 200
        if s2.mode = Mode.relative then
          if s2.twoFingerTapDetected = true ∧ s2.twoFingerMoved = false then
            let out1 :=
              if t - s2.twoFingerStartTime < 200 then
                [Hid.buttonDown "right", Hid.buttonUp "right"]
              else []
            (resetState s2, out0 ++ out1)
          else if wasTap ∧ 1 ≤ changed ∧ s2.touchStartPos.isSome then
            (resetState (processTap t s2), out0)
          else (resetState s2, out0)
        else
          if wasTap ∧ 1 ≤ changed ∧ s2.touchStartPos.isSome then
            (resetState (processTap t s2), out0)
          else (resetState s2, out0)
    else if remaining = 1 then
      ({ s1 with twoFingerTapDetected := false, scrollAnchor := none }, [])
    else (s1, [])

/-- The pending single-tap timeout fires (t = current time): emit the
deferred left-click pulse and clear the double-tap linkage. -/
def fireSingleTapTimer (t : ℚ) (s : MState) : MState × List Hid :=
  match s.singleTapTimer with
  | some d =>
      if d ≤ t then
        ({ s with singleTapTimer := none, lastTapTime := 0, lastTapPos := none },
         [Hid.buttonDown "left", Hid.buttonUp "left"])
      else (s, [])
  | none => (s, [])

/-- The pending long-press timeout fires: re-validate, then emit the
right-click pulse and mark long-press fired. -/
def fireLongPressTimer (t : ℚ) (s : MState) : MState × List Hid :=
  match s.longPressTimer with
  | some d =>
      if d ≤ t then
        let s1 := { s with longPressTimer := none }
        if s1.touchMoved = false ∧ s1.longPressFired = false ∧ s1.isDragging = false then
          ({ s1 with longPressFired := true },
           [Hid.buttonDown "right", Hid.buttonUp "right"])
        else (s1, [])
      else (s, [])
  | none => (s, [])

/-- The pending drag-hold timeout fires: re-validate, then enter drag mode
with a left-button press and cancel the long press. -/
def fireDragHoldTimer (t : ℚ) (s : MState) : MState × List Hid :=
  match s.dragHoldTimer with
  | some d =>
      if d ≤ t then
        let s1 := { s with dragHoldTimer := none }
        if s1.isSecondTapDown = true ∧ s1.touchMoved = false then
          ({ s1 with isDragging := true, longPressTimer := none },
           [Hid.buttonDown "left"])
        else (s1, [])
      else (s, [])
  | none => (s, [])

/-- Events delivered to a MouseHandler.  Positions arrive already converted
by _getTouchPos (single-touch) or as the raw two-finger midpoint; zoom is the
value of _isZoomGesture() during the DOM event; geo is the value of
_getStreamGeometry() where the handler reads it. -/
inductive MEvent where
  | start1 (pos : Pos) (t : ℚ) (zoom : Bool) (geo : Option Geo)
  | start2 (mid : Pos) (rect : Rect) (zcZoomed : Bool) (zcScale : ℚ)
      (t : ℚ) (zoom : Bool) (geo : Option Geo)
  | move1 (pos : Pos) (zoom : Bool)
  | move2 (mid : Pos) (zoom : Bool)
  | touchEnd (remaining changed : ℕ) (t : ℚ) (zoom : Bool) (geo : Option Geo)
  | fireSingleTap (t : ℚ)
  | fireLongPress (t : ℚ)
  | fireDragHold (t : ℚ)
  /-- the 10 ms periodic _sendPlannedMove interval -/
  | flushTick (geo : Option Geo)
deriving Repr

/-- Timer-fire events (deliverable while the touch surface is idle). -/
def isFireEvent : MEvent → Prop
  | MEvent.fireSingleTap _ => True
  | MEvent.fireLongPress _ => True
  | MEvent.fireDragHold _ => True
  | _ => False

/-- One event step of MouseHandler. -/
def mstep (s : MState) (e : MEvent) : MState × List Hid :=
  match e with
  | MEvent.start1 pos t zoom geo => handleStart1 pos t zoom geo s
  | MEvent.start2 mid rect zz zs t zoom geo =>
      handleStart2 mid rect zz zs t zoom geo s
  | MEvent.move1 pos zoom => handleMove1 pos zoom s
  | MEvent.move2 mid zoom => handleMove2 mid zoom s
  | MEvent.touchEnd remaining changed t zoom geo =>
      handleEnd remaining changed t zoom geo s
  | MEvent.fireSingleTap t => fireSingleTapTimer t s
  | MEvent.fireLongPress t => fireLongPressTimer t s
  | MEvent.fireDragHold t => fireDragHoldTimer t s
  | MEvent.flushTick geo => sendPlannedMove s geo

/-- Run a MouseHandler over a list of events, collecting emissions. -/
def mrun (s : MState) (evs : List MEvent) : MState × List Hid :=
  evs.foldl (fun acc e =>
    let r := mstep acc.1 e
    (r.1, acc.2 ++ r.2)) (s, [])

end KvmdTablet

namespace KvmdTablet

/-! ## Theorems -/

/-- Claim C7 (amended): the ScrollShuttle tick interval is at least
preset.minInterval for every displacement and hold time; at fixed hold time
it is monotonically non-increasing in |displacement| on the operating range
|displacement| ≥ preset.firstTickThreshold; and at fixed displacement it is
monotonically non-increasing in the (nonnegative) hold time.  (As stated the
claim fails below the first-tick threshold, where the quadratic distance ramp
is evaluated on a negative ratio: see the counterexample.) -/
theorem c7_interval_props (p : Preset) (trackHalf d d1 d2 e e1 e2 : ℚ)
    (hm : p.minInterval ≤ maxIntervalMs) (hft : p.firstTick ≤ d1) (hdd : d1 ≤ d2)
    (he0 : 0 ≤ e1) (hee : e1 ≤ e2) :
    p.minInterval ≤ computeInterval p trackHalf d e ∧
    computeInterval p trackHalf d2 e ≤ computeInterval p trackHalf d1 e ∧
    computeInterval p trackHalf d e2 ≤ computeInterval p trackHalf d e1 := by
  have hk : (0:ℚ) ≤ maxIntervalMs - p.minInterval := by linarith
  refine ⟨le_max_left _ _, ?_, ?_⟩
  · simp only [computeInterval]
    apply max_le_max le_rfl
    apply min_le_min _ le_rfl
    by_cases hr : trackHalf - p.firstTick > 0
    · simp only [if_pos hr]
      set a := min 1 ((d1 - p.firstTick) / (trackHalf - p.firstTick)) with ha
      set b := min 1 ((d2 - p.firstTick) / (trackHalf - p.firstTick)) with hb
      have ha0 : 0 ≤ a := le_min (by norm_num) (div_nonneg (by linarith) hr.le)
      have hab : a ≤ b :=
        min_le_min le_rfl ((div_le_div_iff_of_pos_right hr).mpr (by linarith))
      have hsq : a * a ≤ b * b := mul_self_le_mul_self ha0 hab
      have := mul_le_mul_of_nonneg_right hsq hk
      linarith
    · simp only [if_neg hr]
      exact le_rfl
  · simp only [computeInterval]
    apply max_le_max le_rfl
    apply min_le_min le_rfl
    set a := min 1 (e1 / rampDurationMs) with ha
    set b := min 1 (e2 / rampDurationMs) with hb
    have ha0 : 0 ≤ a :=
      le_min (by norm_num) (div_nonneg he0 (by norm_num [rampDurationMs]))
    have hab : a ≤ b :=
      min_le_min le_rfl
        ((div_le_div_iff_of_pos_right (by norm_num [rampDurationMs])).mpr hee)
    have hsq : a * a ≤ b * b := mul_self_le_mul_self ha0 hab
    have := mul_le_mul_of_nonneg_right hsq hk
    linarith

/-- Witness for c7_interval_props at the Normal preset with a 100 px track. -/
theorem c7_interval_props_witness :
    presetNormal.minInterval ≤ computeInterval presetNormal 100 30 0 ∧
    computeInterval presetNormal 100 40 0 ≤ computeInterval presetNormal 100 25 0 ∧
    computeInterval presetNormal 100 30 500 ≤ computeInterval presetNormal 100 30 0 :=
  c7_interval_props presetNormal 100 30 25 40 0 0 500
    (by norm_num [presetNormal, maxIntervalMs]) (by norm_num [presetNormal])
    (by norm_num) le_rfl (by norm_num)

/-- Claim C7 counterexample: with the Normal preset (deadZone 12,
firstTick 25) on a 50 px half-track, the computed interval at displacement 13
is strictly smaller than at displacement 20 at equal hold time — the interval
increases with |displacement| inside [deadZone, firstTick).  Such
displacements do reach _computeInterval: the trace below arms the repeat
timer at displacement 30 and then pulls back to 20, leaving the timer armed,
so its next reschedule computes the interval at |displacement| = 20. -/
theorem c7_counterexample :
    (13:ℚ) < 20 ∧
    computeInterval presetNormal 50 13 0 < computeInterval presetNormal 50 20 0 ∧
    (sruns (scrollInit presetNormal false)
        [SEvent.touchStart 0 132 96 0, SEvent.touchMove 86 50]).displacement = 20 ∧
    (sruns (scrollInit presetNormal false)
        [SEvent.touchStart 0 132 96 0, SEvent.touchMove 86 50]).repeatTimer = true := by
  refine ⟨by norm_num, ?_, ?_, ?_⟩
  · norm_num [computeInterval, presetNormal, maxIntervalMs, rampDurationMs,
      min_def, max_def]
  · norm_num [sruns, sstep, updateFromTouch, clampedDisp, newDirOf, reversedState,
      fireTick, scrollInit, presetNormal, min_def, max_def]
  · norm_num [sruns, sstep, updateFromTouch, clampedDisp, newDirOf, reversedState,
      fireTick, scrollInit, presetNormal, min_def, max_def]

/-- Claim C9: _remap is total — the zero divisor is replaced by 1 — and its
result is clamped into [outMin, outMax]; consequently every absolute-move
coordinate emitted by _sendPlannedMove lies in [−32768, 32767], for every
stream geometry including degenerate (zero- or one-pixel-wide) ones. -/
theorem c9_remap_total :
    (∀ value inMin inMax outMin outMax : ℚ, outMin ≤ outMax →
       outMin ≤ remap value inMin inMax outMin outMax ∧
         remap value inMin inMax outMin outMax ≤ outMax) ∧
    (∀ (s : MState) (geo : Option Geo) (x y : ℚ),
       Hid.moveAbs x y ∈ (sendPlannedMove s geo).2 →
       -32768 ≤ x ∧ x ≤ 32767 ∧ -32768 ≤ y ∧ y ≤ 32767) := by
  have base : ∀ value inMin inMax outMin outMax : ℚ, outMin ≤ outMax →
      outMin ≤ remap value inMin inMax outMin outMax ∧
        remap value inMin inMax outMin outMax ≤ outMax := by
    intro v a b o1 o2 h
    unfold remap
    exact ⟨le_min (le_max_right _ _) h, min_le_right _ _⟩
  refine ⟨base, ?_⟩
  intro s geo x y hmem
  unfold sendPlannedMove at hmem
  split at hmem
  · simp only [List.mem_singleton, Hid.moveAbs.injEq] at hmem
    obtain ⟨hx, hy⟩ := hmem
    subst hx
    subst hy
    exact ⟨(base _ _ _ _ _ (by norm_num)).1, (base _ _ _ _ _ (by norm_num)).2,
      (base _ _ _ _ _ (by norm_num)).1, (base _ _ _ _ _ (by norm_num)).2⟩
  · exact absurd hmem (List.not_mem_nil _)

/-- Witness for c9_remap_total on the degenerate span inMax = inMin = 0
(a one-pixel-wide geometry), where the divisor is replaced by 1. -/
theorem c9_remap_total_witness :
    (-32768:ℚ) ≤ remap 5 0 0 (-32768) 32767 ∧ remap 5 0 0 (-32768) 32767 ≤ 32767 :=
  c9_remap_total.1 5 0 0 (-32768) 32767 (by norm_num)

/-- Claim C3: every absolute-mode position flush emits, per axis
independently, the linear remap of (position − geometry origin) from
[0, extent−1] onto [−32768, 32767], rounded then clamped; and the concrete
scenario — a tap at content position (100,100) with a 50 px letterbox and a
400 px displayed width — yields x = remap(50, 0, 399, −32768, 32767), which
evaluates to −24556. -/
theorem c3_abs_move_remap :
    (∀ (s : MState) (g : Geo) (p : Pos), s.mode = Mode.absolute → s.absPos = some p →
      (sendPlannedMove s (some g)).2 =
        [Hid.moveAbs (specAxisRemap p.x g.x g.width) (specAxisRemap p.y g.y g.height)]) ∧
    (sendPlannedMove { minit Mode.absolute with absPos := some ⟨100, 100⟩ }
        (some ⟨50, 50, 400, 300⟩)).2 =
      [Hid.moveAbs (remap 50 0 399 (-32768) 32767) (remap 50 0 299 (-32768) 32767)] ∧
    remap 50 0 399 (-32768) 32767 = -24556 := by
  have axis : ∀ pv gv ev : ℚ,
      remap (pv - gv) 0 (ev - 1) (-32768) 32767 = specAxisRemap pv gv ev := by
    intro pv gv ev
    simp only [remap, specAxisRemap, sub_zero]
  refine ⟨?_, ?_, ?_⟩
  · intro s g p hm hp
    simp only [sendPlannedMove, hm, hp, axis]
  · norm_num [sendPlannedMove, minit]
  · norm_num [remap, jsRound, min_def, max_def]

/-- Witness for c3_abs_move_remap: the concrete scenario state, via the
general per-axis equation. -/
theorem c3_abs_move_remap_witness :
    (sendPlannedMove { minit Mode.absolute with absPos := some ⟨100, 100⟩ }
        (some ⟨50, 50, 400, 300⟩)).2 =
      [Hid.moveAbs (specAxisRemap 100 50 400) (specAxisRemap 100 50 300)] :=
  c3_abs_move_remap.1 _ ⟨50, 50, 400, 300⟩ ⟨100, 100⟩ rfl rfl

end KvmdTablet

namespace KvmdTablet

/-- The state component of _fireTick: only the tick counter changes. -/
theorem fireTick_fst (s : ScrollState) :
    (fireTick s).1 = { s with tickCount := s.tickCount + 1 } := rfl

/-- _fireTick always emits at least one wheel event. -/
theorem fireTick_snd_ne_nil (s : ScrollState) : (fireTick s).2 ≠ [] := by
  simp only [fireTick]
  split_ifs <;> simp

/-- The source's newDir value is never zero. -/
theorem newDirOf_ne_zero (c : ℚ) : newDirOf c ≠ 0 := by
  unfold newDirOf
  split_ifs <;> simp

/-- The reversal block never changes the preset. -/
theorem reversedState_preset (s1 : ScrollState) (d : ℤ) :
    (reversedState s1 d).preset = s1.preset := by
  unfold reversedState
  split_ifs <;> rfl

/-- The reversal block never changes the displacement. -/
theorem reversedState_displacement (s1 : ScrollState) (d : ℤ) :
    (reversedState s1 d).displacement = s1.displacement := by
  unfold reversedState
  split_ifs <;> rfl

/-- After the reversal block the direction equals newDir. -/
theorem reversedState_direction (s1 : ScrollState) (d : ℤ) :
    (reversedState s1 d).direction = d := by
  unfold reversedState
  split_ifs with h
  · rfl
  · exact (not_ne_iff.mp h).symm

/-- The reversal block cannot arm the repeat timer. -/
theorem reversedState_repeatTimer (s1 : ScrollState) (d : ℤ)
    (h : s1.repeatTimer = false) : (reversedState s1 d).repeatTimer = false := by
  unfold reversedState
  split_ifs
  · rfl
  · exact h

/-- Any state produced by _updateFromTouch satisfies the shuttle timer
invariant: a pending repeat timer implies the (fresh) displacement is at
least the dead zone and the direction is nonzero. -/
theorem updateFromTouch_timer_inv (s : ScrollState) (cy now : ℚ) :
    (updateFromTouch s cy now).1.repeatTimer = true →
    (updateFromTouch s cy now).1.preset.deadZone ≤
        |(updateFromTouch s cy now).1.displacement| ∧
      (updateFromTouch s cy now).1.direction ≠ 0 := by
  simp only [updateFromTouch]
  split_ifs with h1 h2 <;> intro ht
  · exact absurd ht (by simp)
  · simp only [fireTick_fst, reversedState_preset, reversedState_displacement,
      reversedState_direction]
    exact ⟨not_lt.mp h1, newDirOf_ne_zero _⟩
  · simp only [reversedState_preset, reversedState_displacement,
      reversedState_direction]
    exact ⟨not_lt.mp h1, newDirOf_ne_zero _⟩

/-- One ScrollWidget event step preserves the shuttle timer invariant. -/
theorem sstep_timer_inv (s : ScrollState) (e : SEvent)
    (h : s.repeatTimer = true →
      s.preset.deadZone ≤ |s.displacement| ∧ s.direction ≠ 0) :
    (sstep s e).1.repeatTimer = true →
    (sstep s e).1.preset.deadZone ≤ |(sstep s e).1.displacement| ∧
      (sstep s e).1.direction ≠ 0 := by
  cases e with
  | touchStart rt rh cy now => exact updateFromTouch_timer_inv _ cy now
  | touchMove cy now =>
      simp only [sstep]
      split_ifs with ha
      · exact updateFromTouch_timer_inv _ cy now
      · exact h
  | timerFire now =>
      simp only [sstep]
      split_ifs with h1 h2 <;> intro ht
      · exact absurd ht (by simp)
      · exact h h1
      · exact h ht
  | touchEnd =>
      intro ht
      exact absurd ht (by simp [sstep])

/-- The shuttle timer invariant holds along every run. -/
theorem sruns_timer_inv (evs : List SEvent) : ∀ s : ScrollState,
    (s.repeatTimer = true →
      s.preset.deadZone ≤ |s.displacement| ∧ s.direction ≠ 0) →
    ((sruns s evs).repeatTimer = true →
      (sruns s evs).preset.deadZone ≤ |(sruns s evs).displacement| ∧
        (sruns s evs).direction ≠ 0) := by
  induction evs with
  | nil => intro s h; exact h
  | cons e evs ih =>
      intro s h
      simpa [sruns] using ih (sstep s e).1 (sstep_timer_inv s e h)

/-- Claim C8 (amended): a displacement update landing inside the dead zone
zeroes the direction, emits nothing and cancels the repeat timer; an update
reaching the first-tick threshold with no repeat timer pending emits its
tick immediately (within the update itself, with the repeat ramp started at
the update's own timestamp) and arms auto-repeat; and in every reachable
state a pending repeat timer implies |displacement| ≥ deadZone and a nonzero
direction.  (The claim's stronger bound — armed only while |displacement| ≥
firstTickThreshold — fails: see the counterexample.) -/
theorem c8_shuttle_props :
    (∀ (s : ScrollState) (cy now : ℚ),
        |clampedDisp s cy| < s.preset.deadZone →
        (updateFromTouch s cy now).1.direction = 0 ∧
        (updateFromTouch s cy now).2 = [] ∧
        (updateFromTouch s cy now).1.repeatTimer = false) ∧
    (∀ (s : ScrollState) (cy now : ℚ),
        s.preset.deadZone ≤ s.preset.firstTick →
        s.preset.firstTick ≤ |clampedDisp s cy| →
        s.repeatTimer = false →
        (updateFromTouch s cy now).1.repeatTimer = true ∧
        (updateFromTouch s cy now).2 ≠ [] ∧
        (updateFromTouch s cy now).1.repeatStartTime = now) ∧
    (∀ s : ScrollState, SReachable s → s.repeatTimer = true →
        s.preset.deadZone ≤ |s.displacement| ∧ s.direction ≠ 0) := by
  refine ⟨?_, ?_, ?_⟩
  · intro s cy now h
    simp only [updateFromTouch]
    rw [if_pos (by simpa using h)]
    exact ⟨rfl, rfl, rfl⟩
  · intro s cy now hdz hft hnt
    have hnd : ¬(|clampedDisp s cy| < s.preset.deadZone) :=
      not_lt.mpr (le_trans hdz hft)
    simp only [updateFromTouch]
    split_ifs with h1
    · exact ⟨rfl, fireTick_snd_ne_nil _, rfl⟩
    · refine absurd ⟨?_, ?_⟩ h1
      · simp only [reversedState_preset]
        exact hft
      · exact reversedState_repeatTimer _ _ hnt
  · rintro s ⟨preset, macMode, evs, rfl⟩
    exact sruns_timer_inv evs _ (by intro h; exact absurd h (by simp [scrollInit]))

/-- Witness for c8_shuttle_props: the dead-zone part at an idle widget, the
immediate-first-tick part at a measured 50 px track touched 30 px below
center, and the invariant part at the reachable armed state that touch
produces. -/
theorem c8_shuttle_props_witness :
    ((updateFromTouch (scrollInit presetNormal false) 5 0).1.direction = 0 ∧
      (updateFromTouch (scrollInit presetNormal false) 5 0).2 = [] ∧
      (updateFromTouch (scrollInit presetNormal false) 5 0).1.repeatTimer = false) ∧
    ((updateFromTouch { scrollInit presetNormal false with trackHalf := 50 } 30 7).1.repeatTimer = true ∧
      (updateFromTouch { scrollInit presetNormal false with trackHalf := 50 } 30 7).2 ≠ [] ∧
      (updateFromTouch { scrollInit presetNormal false with trackHalf := 50 } 30 7).1.repeatStartTime = 7) ∧
    ((sruns (scrollInit presetNormal false) [SEvent.touchStart 0 132 96 0]).preset.deadZone ≤
        |(sruns (scrollInit presetNormal false) [SEvent.touchStart 0 132 96 0]).displacement| ∧
      (sruns (scrollInit presetNormal false) [SEvent.touchStart 0 132 96 0]).direction ≠ 0) :=
  ⟨c8_shuttle_props.1 (scrollInit presetNormal false) 5 0
      (by norm_num [clampedDisp, scrollInit, presetNormal, min_def, max_def]),
   c8_shuttle_props.2.1 { scrollInit presetNormal false with trackHalf := 50 } 30 7
      (by norm_num [scrollInit, presetNormal])
      (by norm_num [clampedDisp, scrollInit, presetNormal, min_def, max_def])
      rfl,
   c8_shuttle_props.2.2 _ ⟨presetNormal, false, [SEvent.touchStart 0 132 96 0], rfl⟩
      (by norm_num [sruns, sstep, updateFromTouch, clampedDisp, newDirOf, reversedState,
        fireTick, scrollInit, presetNormal, min_def, max_def])⟩

/-- Claim C8 counterexample: arming at displacement 30 on a Normal-preset
50 px half-track and then pulling back to displacement 20 leaves the repeat
timer armed while |displacement| = 20 is strictly below the first-tick
threshold 25 — the timer is not armed "only while |displacement| ≥
firstTickThreshold". -/
theorem c8_counterexample :
    (sruns (scrollInit presetNormal false)
        [SEvent.touchStart 0 132 96 0, SEvent.touchMove 86 50]).repeatTimer = true ∧
    ¬((sruns (scrollInit presetNormal false)
        [SEvent.touchStart 0 132 96 0, SEvent.touchMove 86 50]).preset.firstTick ≤
      |(sruns (scrollInit presetNormal false)
        [SEvent.touchStart 0 132 96 0, SEvent.touchMove 86 50]).displacement|) := by
  constructor <;>
    norm_num [sruns, sstep, updateFromTouch, clampedDisp, newDirOf, reversedState,
      fireTick, scrollInit, presetNormal, min_def, max_def]

end KvmdTablet

namespace KvmdTablet

/-- The classification block never changes the scale. -/
theorem classifyZ_scale (t : ZTouch) (v : ZView) (s : ZState) :
    (classifyZ t v s).scale = s.scale := by
  unfold classifyZ
  split_ifs <;> rfl

/-- The classification block never changes the translation. -/
theorem classifyZ_translate (t : ZTouch) (v : ZView) (s : ZState) :
    (classifyZ t v s).translateX = s.translateX ∧
    (classifyZ t v s).translateY = s.translateY := by
  unfold classifyZ
  split_ifs <;> exact ⟨rfl, rfl⟩

/-- If the state is already decided, the classification block is a no-op. -/
theorem classifyZ_of_decided (t : ZTouch) (v : ZView) (s : ZState)
    (h : s.gestureUndecided = false) : classifyZ t v s = s := by
  unfold classifyZ
  rw [if_neg (by simp [h])]

/-- If a state stays undecided through the classification block, the block
changed nothing at all. -/
theorem classifyZ_of_stay (t : ZTouch) (v : ZView) (s : ZState)
    (h : s.gestureUndecided = true)
    (h2 : (classifyZ t v s).gestureUndecided = true) : classifyZ t v s = s := by
  by_cases e1 : |t.dist - s.pinchStartDist| > pinchThreshold
  · have hf : (classifyZ t v s).gestureUndecided = false := by
      unfold classifyZ
      rw [if_pos h, if_pos e1]
    exact absurd (hf ▸ h2) Bool.false_ne_true
  · by_cases e2 : |t.midX - s.undecidedMidX| > 10 ∨ |t.midY - s.undecidedMidY| > 10
    · have hf : (classifyZ t v s).gestureUndecided = false := by
        unfold classifyZ
        rw [if_pos h, if_neg e1, if_pos e2]
        split_ifs <;> rfl
      exact absurd (hf ▸ h2) Bool.false_ne_true
    · unfold classifyZ
      rw [if_pos h, if_neg e1, if_neg e2]

/-- The classification block preserves the structural invariant. -/
theorem classifyZ_inv (t : ZTouch) (v : ZView) (s : ZState) (h : ZInv s) :
    ZInv (classifyZ t v s) := by
  unfold classifyZ
  split_ifs with h1 h2 h3 h4
  · -- pinch classification
    obtain ⟨hp, hn, _⟩ := h.2.1 h1
    exact ⟨h.1, fun hu => absurd hu Bool.false_ne_true,
      fun hs => absurd hs Bool.false_ne_true, fun hpa => absurd (hn ▸ hpa) Bool.false_ne_true⟩
  · -- pan classification
    exact ⟨h.1, fun hu => absurd hu Bool.false_ne_true,
      fun hs => absurd hs Bool.false_ne_true, fun _ => rfl⟩
  · -- scroll classification
    obtain ⟨_, hn, _⟩ := h.2.1 h1
    exact ⟨h.1, fun hu => absurd hu Bool.false_ne_true,
      fun _ => ⟨rfl, hn⟩, fun hpa => absurd (hn ▸ hpa) Bool.false_ne_true⟩
  · exact h
  · exact h

/-- _clampTranslation leaves the scale unchanged and forces the translation
into ±(viewport dimension)·(scale − 1)/2 on each axis, provided the scale is
at least 1 and the viewport dimensions are nonnegative. -/
theorem clampTranslation_bounds (w hgt : ℚ) (s : ZState)
    (hw : 0 ≤ w) (hh : 0 ≤ hgt) (hs : 1 ≤ s.scale) :
    |(clampTranslation w hgt s).translateX| ≤
        w * ((clampTranslation w hgt s).scale - 1) / 2 ∧
      |(clampTranslation w hgt s).translateY| ≤
        hgt * ((clampTranslation w hgt s).scale - 1) / 2 := by
  have hmx : 0 ≤ w * (s.scale - 1) / 2 :=
    div_nonneg (mul_nonneg hw (by linarith)) (by norm_num)
  have hmy : 0 ≤ hgt * (s.scale - 1) / 2 :=
    div_nonneg (mul_nonneg hh (by linarith)) (by norm_num)
  show |(clampTranslation w hgt s).translateX| ≤ w * (s.scale - 1) / 2 ∧
    |(clampTranslation w hgt s).translateY| ≤ hgt * (s.scale - 1) / 2
  simp only [clampTranslation]
  constructor
  · rw [abs_le]
    exact ⟨le_max_left _ _,
      max_le (by linarith) (min_le_left _ _)⟩
  · rw [abs_le]
    exact ⟨le_max_left _ _,
      max_le (by linarith) (min_le_left _ _)⟩

/-- Every ZoomController event step preserves the structural invariant. -/
theorem zstep_inv (s : ZState) (e : ZEvent) (h : ZInv s) : ZInv (zstep s e) := by
  cases e with
  | start2 t =>
      exact ⟨h.1, fun _ => ⟨rfl, rfl, rfl⟩,
        fun hs => absurd hs Bool.false_ne_true,
        fun hp => absurd hp Bool.false_ne_true⟩
  | move2 t v =>
      simp only [zstep, handleZMove2]
      split_ifs with hg hu hsc hpan hpin
      · exact h
      · exact classifyZ_inv t v s h
      · exact classifyZ_inv t v s h
      · -- pan update: scale and flags preserved definitionally
        have hi := classifyZ_inv t v s h
        exact ⟨hi.1, hi.2.1, hi.2.2.1, hi.2.2.2⟩
      · -- pinch update: the new scale is clamped at or above 1
        have hi := classifyZ_inv t v s h
        exact ⟨le_max_left _ _, hi.2.1, hi.2.2.1, hi.2.2.2⟩
      · exact classifyZ_inv t v s h
  | endBelow2 v =>
      simp only [zstep, handleZEnd]
      split_ifs with h1 h2 h3
      all_goals
        refine ⟨?_, fun hu => absurd hu Bool.false_ne_true,
          fun hs => absurd hs Bool.false_ne_true,
          fun hp => absurd hp Bool.false_ne_true⟩
      all_goals first
        | exact le_refl (1:ℚ)
        | exact h.1
  | endAtLeast2 => exact h
  | ignoredTouch => exact h
  | native rw rh vw vh =>
      simp only [zstep, zoomToNativeZ]
      split_ifs with h1 h2
      · exact h
      · exact h
      · exact ⟨by linarith [not_le.mp h2], h.2.1, h.2.2.1, h.2.2.2⟩
  | reset => exact ⟨le_refl 1, h.2.1, h.2.2.1, h.2.2.2⟩

/-- The structural invariant holds along every run. -/
theorem zrun_inv (evs : List ZEvent) : ∀ s : ZState, ZInv s → ZInv (zrun s evs) := by
  induction evs with
  | nil => intro s h; exact h
  | cons e evs ih =>
      intro s h
      simpa [zrun] using ih (zstep s e) (zstep_inv s e h)

/-- Every reachable ZoomController state satisfies the structural invariant. -/
theorem zreachable_inv (s : ZState) (h : ZReachable s) : ZInv s := by
  obtain ⟨evs, rfl⟩ := h
  exact zrun_inv evs zinit
    ⟨le_refl 1, fun hu => absurd hu Bool.false_ne_true,
      fun hs => absurd hs Bool.false_ne_true,
      fun hp => absurd hp Bool.false_ne_true⟩

/-- Claim C1 (amended): in every reachable ZoomController state the scale is
at least 1, and after every two-finger move that executes the pan or the
pinch branch the translation satisfies |translateX| ≤ viewW·(scale−1)/2 and
|translateY| ≤ viewH·(scale−1)/2, with the pinch branch additionally
clamping the scale into [1,4].  (The claim's global upper bound scale ≤ 4
fails: zoomToNative sets the unclamped native 1:1 scale — see the
counterexample.) -/
theorem c1_zoom_invariants :
    (∀ s : ZState, ZReachable s → 1 ≤ s.scale) ∧
    (∀ (s : ZState) (t : ZTouch) (v : ZView), ZReachable s →
      0 ≤ v.viewW → 0 ≤ v.viewH →
      ((zstep s (ZEvent.move2 t v)).isPanning = true ∨
        (zstep s (ZEvent.move2 t v)).isPinching = true) →
      (|(zstep s (ZEvent.move2 t v)).translateX| ≤
          v.viewW * ((zstep s (ZEvent.move2 t v)).scale - 1) / 2 ∧
        |(zstep s (ZEvent.move2 t v)).translateY| ≤
          v.viewH * ((zstep s (ZEvent.move2 t v)).scale - 1) / 2) ∧
      ((zstep s (ZEvent.move2 t v)).isPinching = true →
        (zstep s (ZEvent.move2 t v)).scale ≤ 4)) := by
  constructor
  · intro s h
    exact (zreachable_inv s h).1
  · intro s t v hreach hW hH hOr
    have hinv := zreachable_inv s hreach
    have hi := classifyZ_inv t v s hinv
    revert hOr
    simp only [zstep, handleZMove2]
    split_ifs with hg hu hsc hpan hpin <;> intro hOr
    · rcases hOr with hp | hp
      · exact absurd hp (by rw [hg.2.2.2]; exact Bool.false_ne_true)
      · exact absurd hp (by rw [hg.2.1]; exact Bool.false_ne_true)
    · obtain ⟨hpf, hpaf, _⟩ := hi.2.1 hu
      rcases hOr with hp | hp
      · exact absurd hp (by rw [hpaf]; exact Bool.false_ne_true)
      · exact absurd hp (by rw [hpf]; exact Bool.false_ne_true)
    · obtain ⟨hpf, hpaf⟩ := hi.2.2.1 hsc
      rcases hOr with hp | hp
      · exact absurd hp (by rw [hpaf]; exact Bool.false_ne_true)
      · exact absurd hp (by rw [hpf]; exact Bool.false_ne_true)
    · -- pan branch
      refine ⟨clampTranslation_bounds v.viewW v.viewH _ hW hH hi.1, fun hp => ?_⟩
      have hnp : (panUpdate t v (classifyZ t v s)).isPinching = false := hi.2.2.2 hpan
      exact absurd hp (by rw [hnp]; exact Bool.false_ne_true)
    · -- pinch branch
      refine ⟨clampTranslation_bounds v.viewW v.viewH _ hW hH (le_max_left _ _),
        fun _ => ?_⟩
      exact max_le (by norm_num) (min_le_right _ _)
    · rcases hOr with hp | hp
      · exact absurd hp hpan
      · exact absurd hp hpin

/-- Witness for c1_zoom_invariants: the initial state, and the reachable
state right after a two-finger touchstart at distance 100, moved to distance
130 against a 400×300 viewport — a pinch update. -/
theorem c1_zoom_invariants_witness :
    1 ≤ zinit.scale ∧
    (|(zstep (zstep zinit (ZEvent.start2 ⟨100, 0, 0⟩))
          (ZEvent.move2 ⟨130, 0, 0⟩ ⟨400, 300, 0, 0⟩)).translateX| ≤
        400 * ((zstep (zstep zinit (ZEvent.start2 ⟨100, 0, 0⟩))
          (ZEvent.move2 ⟨130, 0, 0⟩ ⟨400, 300, 0, 0⟩)).scale - 1) / 2 ∧
      |(zstep (zstep zinit (ZEvent.start2 ⟨100, 0, 0⟩))
          (ZEvent.move2 ⟨130, 0, 0⟩ ⟨400, 300, 0, 0⟩)).translateY| ≤
        300 * ((zstep (zstep zinit (ZEvent.start2 ⟨100, 0, 0⟩))
          (ZEvent.move2 ⟨130, 0, 0⟩ ⟨400, 300, 0, 0⟩)).scale - 1) / 2) ∧
    ((zstep (zstep zinit (ZEvent.start2 ⟨100, 0, 0⟩))
        (ZEvent.move2 ⟨130, 0, 0⟩ ⟨400, 300, 0, 0⟩)).isPinching = true →
      (zstep (zstep zinit (ZEvent.start2 ⟨100, 0, 0⟩))
        (ZEvent.move2 ⟨130, 0, 0⟩ ⟨400, 300, 0, 0⟩)).scale ≤ 4) :=
  ⟨c1_zoom_invariants.1 zinit ⟨[], rfl⟩,
   (c1_zoom_invariants.2 (zstep zinit (ZEvent.start2 ⟨100, 0, 0⟩)) ⟨130, 0, 0⟩
      ⟨400, 300, 0, 0⟩ ⟨[ZEvent.start2 ⟨100, 0, 0⟩], rfl⟩ (by norm_num) (by norm_num)
      (Or.inr (by norm_num [zstep, handleZStart2, handleZMove2, classifyZ,
        pinchUpdate, clampTranslation, zinit, pinchThreshold]))).1,
   (c1_zoom_invariants.2 (zstep zinit (ZEvent.start2 ⟨100, 0, 0⟩)) ⟨130, 0, 0⟩
      ⟨400, 300, 0, 0⟩ ⟨[ZEvent.start2 ⟨100, 0, 0⟩], rfl⟩ (by norm_num) (by norm_num)
      (Or.inr (by norm_num [zstep, handleZStart2, handleZMove2, classifyZ,
        pinchUpdate, clampTranslation, zinit, pinchThreshold]))).2⟩

/-- Claim C1 counterexample: zoomToNative with a 1920×1080 stream in a
400×300 viewport reaches scale 24/5 = 4.8 > 4 — the scale of a reachable
state is not clamped to [1,4]. -/
theorem c1_counterexample :
    ZReachable (zrun zinit [ZEvent.native 1920 1080 400 300]) ∧
    (zrun zinit [ZEvent.native 1920 1080 400 300]).scale = 24/5 ∧
    ¬((zrun zinit [ZEvent.native 1920 1080 400 300]).scale ≤ 4) := by
  refine ⟨⟨[ZEvent.native 1920 1080 400 300], rfl⟩, ?_, ?_⟩ <;>
    norm_num [zrun, zstep, zoomToNativeZ, zinit, min_def]

end KvmdTablet

namespace KvmdTablet

/-- Claim C2: two-finger classification.  On a two-finger touchstart the
classification is undecided with no decided flag.  From an undecided state,
a two-finger move classifies pinch exactly when the inter-finger distance
has changed by more than the 15 px threshold (checked first, so a
simultaneous midpoint move still yields pinch); otherwise it becomes pan
exactly when the midpoint moved more than 10 px on either axis while
zoomed, and scroll exactly when it did so unzoomed — the scroll case
changing none of scale/translate (handed off to the pointer recognizer);
otherwise it stays undecided.  Once decided, every event that keeps the
finger count at two or more (moves, partial touchends, ignored one- or
three-finger touches, toggle/reset entry points) preserves the
classification, and it is reset exactly when the finger count drops below
two. -/
theorem c2_classification :
    (∀ (s : ZState) (t : ZTouch),
       (zstep s (ZEvent.start2 t)).gestureUndecided = true ∧
       (zstep s (ZEvent.start2 t)).isPinching = false ∧
       (zstep s (ZEvent.start2 t)).isPanning = false ∧
       (zstep s (ZEvent.start2 t)).isScroll = false) ∧
    (∀ (s : ZState) (t : ZTouch) (v : ZView),
       s.gestureUndecided = true → s.isPinching = false → s.isPanning = false →
       s.isScroll = false →
       (((zstep s (ZEvent.move2 t v)).isPinching = true ↔
           |t.dist - s.pinchStartDist| > pinchThreshold) ∧
        ((zstep s (ZEvent.move2 t v)).isPanning = true ↔
           ¬(|t.dist - s.pinchStartDist| > pinchThreshold) ∧
             (|t.midX - s.undecidedMidX| > 10 ∨ |t.midY - s.undecidedMidY| > 10) ∧
             s.zoomed = true) ∧
        ((zstep s (ZEvent.move2 t v)).isScroll = true ↔
           ¬(|t.dist - s.pinchStartDist| > pinchThreshold) ∧
             (|t.midX - s.undecidedMidX| > 10 ∨ |t.midY - s.undecidedMidY| > 10) ∧
             s.zoomed = false) ∧
        ((zstep s (ZEvent.move2 t v)).gestureUndecided = true ↔
           ¬(|t.dist - s.pinchStartDist| > pinchThreshold) ∧
             ¬(|t.midX - s.undecidedMidX| > 10 ∨ |t.midY - s.undecidedMidY| > 10)) ∧
        ((zstep s (ZEvent.move2 t v)).isScroll = true →
           (zstep s (ZEvent.move2 t v)).scale = s.scale ∧
           (zstep s (ZEvent.move2 t v)).translateX = s.translateX ∧
           (zstep s (ZEvent.move2 t v)).translateY = s.translateY))) ∧
    (∀ (s : ZState) (e : ZEvent), zNonBoundary e → ZReachable s → s.zdecided →
       (zstep s e).isPinching = s.isPinching ∧
       (zstep s e).isPanning = s.isPanning ∧
       (zstep s e).isScroll = s.isScroll) ∧
    (∀ (s : ZState) (v : ZView),
       (zstep s (ZEvent.endBelow2 v)).gestureUndecided = false ∧
       (zstep s (ZEvent.endBelow2 v)).isPinching = false ∧
       (zstep s (ZEvent.endBelow2 v)).isPanning = false ∧
       (zstep s (ZEvent.endBelow2 v)).isScroll = false) := by
  refine ⟨?_, ?_, ?_, ?_⟩
  · intro s t
    exact ⟨rfl, rfl, rfl, rfl⟩
  · intro s t v hu hpf hpanf hscf
    have hguard : ¬(s.gestureUndecided = false ∧ s.isPinching = false ∧
        s.isScroll = false ∧ s.isPanning = false) := by
      intro hc
      rw [hu] at hc
      exact absurd hc.1 (by simp)
    simp only [zstep, handleZMove2]
    rw [if_neg hguard]
    by_cases hdc : |t.dist - s.pinchStartDist| > pinchThreshold
    · have hcl : classifyZ t v s =
          { s with gestureUndecided := false, isPinching := true,
                   isScroll := false,
                   pinchFocalX := (t.midX - v.rectLeft) / s.pinchStartScale,
                   pinchFocalY := (t.midY - v.rectTop) / s.pinchStartScale } := by
        unfold classifyZ
        rw [if_pos hu, if_pos hdc]
      rw [hcl]
      simp [pinchUpdate, clampTranslation, hdc, hpanf]
    · by_cases hmid : |t.midX - s.undecidedMidX| > 10 ∨ |t.midY - s.undecidedMidY| > 10
      · by_cases hz : s.zoomed = true
        · have hcl : classifyZ t v s =
              { s with gestureUndecided := false, isPinching := false,
                       isPanning := true, isScroll := false,
                       panStartMidX := t.midX, panStartMidY := t.midY,
                       panStartTX := s.translateX, panStartTY := s.translateY } := by
            unfold classifyZ
            rw [if_pos hu, if_neg hdc, if_pos hmid, if_pos hz]
          rw [hcl]
          simp [panUpdate, clampTranslation, hdc, hmid, hz]
        · have hzf : s.zoomed = false := by
            rwa [Bool.not_eq_true] at hz
          have hcl : classifyZ t v s =
              { s with gestureUndecided := false, isPinching := false,
                       isScroll := true } := by
            unfold classifyZ
            rw [if_pos hu, if_neg hdc, if_pos hmid, if_neg hz]
          rw [hcl]
          simp [hdc, hmid, hzf, hpanf, hpf]
      · have hcl : classifyZ t v s = s := by
          unfold classifyZ
          rw [if_pos hu, if_neg hdc, if_neg hmid]
        rw [hcl, if_pos hu]
        simp [hdc, hmid, hu, hpf, hpanf, hscf]
  · intro s e hnb hreach hdec
    have hinv := zreachable_inv s hreach
    have hundec : s.gestureUndecided = false := by
      cases hg : s.gestureUndecided
      · rfl
      · obtain ⟨hp, hpa, hs⟩ := hinv.2.1 hg
        rcases hdec with h | h | h
        · rw [hp] at h
          exact absurd h Bool.false_ne_true
        · rw [hpa] at h
          exact absurd h Bool.false_ne_true
        · rw [hs] at h
          exact absurd h Bool.false_ne_true
    cases e with
    | start2 t => exact hnb.elim
    | move2 t v =>
        simp only [zstep, handleZMove2]
        rw [classifyZ_of_decided t v s hundec]
        split_ifs <;> exact ⟨rfl, rfl, rfl⟩
    | endBelow2 v => exact hnb.elim
    | endAtLeast2 => exact ⟨rfl, rfl, rfl⟩
    | ignoredTouch => exact ⟨rfl, rfl, rfl⟩
    | native realW realH vw vh =>
        simp only [zstep, zoomToNativeZ]
        split_ifs <;> exact ⟨rfl, rfl, rfl⟩
    | reset => exact ⟨rfl, rfl, rfl⟩
  · intro s v
    simp only [zstep, handleZEnd]
    split_ifs <;> exact ⟨rfl, rfl, rfl, rfl⟩

/-- Witness for c2_classification: from the state right after a two-finger
touchstart at distance 100, a move to distance 130 classifies pinch; and the
pinch-decided state is preserved by the reset entry point (an event keeping
two fingers down). -/
theorem c2_classification_witness :
    ((zstep (zstep zinit (ZEvent.start2 ⟨100, 0, 0⟩))
        (ZEvent.move2 ⟨130, 0, 0⟩ ⟨400, 300, 0, 0⟩)).isPinching = true ↔
      |(⟨130, 0, 0⟩ : ZTouch).dist -
          (zstep zinit (ZEvent.start2 ⟨100, 0, 0⟩)).pinchStartDist| > pinchThreshold) ∧
    ((zstep (zrun zinit
        [ZEvent.start2 ⟨100, 0, 0⟩, ZEvent.move2 ⟨130, 0, 0⟩ ⟨400, 300, 0, 0⟩])
          ZEvent.reset).isPinching =
      (zrun zinit
        [ZEvent.start2 ⟨100, 0, 0⟩, ZEvent.move2 ⟨130, 0, 0⟩ ⟨400, 300, 0, 0⟩]).isPinching) :=
  ⟨(c2_classification.2.1 (zstep zinit (ZEvent.start2 ⟨100, 0, 0⟩)) ⟨130, 0, 0⟩
      ⟨400, 300, 0, 0⟩ rfl rfl rfl rfl).1,
   (c2_classification.2.2.1
      (zrun zinit [ZEvent.start2 ⟨100, 0, 0⟩, ZEvent.move2 ⟨130, 0, 0⟩ ⟨400, 300, 0, 0⟩])
      ZEvent.reset trivial
      ⟨[ZEvent.start2 ⟨100, 0, 0⟩, ZEvent.move2 ⟨130, 0, 0⟩ ⟨400, 300, 0, 0⟩], rfl⟩
      (Or.inl (by norm_num [zrun, zstep, handleZStart2, handleZMove2, classifyZ,
        pinchUpdate, clampTranslation, zinit, pinchThreshold]))).1⟩

end KvmdTablet

namespace KvmdTablet

/-- _sendPlannedMove changes no field but absPos. -/
theorem sendPlannedMove_proj (s : MState) (geo : Option Geo) :
    (sendPlannedMove s geo).1.mode = s.mode ∧
    (sendPlannedMove s geo).1.enabled = s.enabled ∧
    (sendPlannedMove s geo).1.sensitivity = s.sensitivity ∧
    (sendPlannedMove s geo).1.relTouchStart = s.relTouchStart ∧
    (sendPlannedMove s geo).1.touchStartTime = s.touchStartTime ∧
    (sendPlannedMove s geo).1.touchStartPos = s.touchStartPos ∧
    (sendPlannedMove s geo).1.touchMoved = s.touchMoved ∧
    (sendPlannedMove s geo).1.lastTapTime = s.lastTapTime ∧
    (sendPlannedMove s geo).1.lastTapPos = s.lastTapPos ∧
    (sendPlannedMove s geo).1.singleTapTimer = s.singleTapTimer ∧
    (sendPlannedMove s geo).1.longPressTimer = s.longPressTimer ∧
    (sendPlannedMove s geo).1.longPressFired = s.longPressFired ∧
    (sendPlannedMove s geo).1.isDragging = s.isDragging ∧
    (sendPlannedMove s geo).1.dragHoldTimer = s.dragHoldTimer ∧
    (sendPlannedMove s geo).1.isSecondTapDown = s.isSecondTapDown ∧
    (sendPlannedMove s geo).1.twoFingerTapDetected = s.twoFingerTapDetected ∧
    (sendPlannedMove s geo).1.twoFingerStartTime = s.twoFingerStartTime ∧
    (sendPlannedMove s geo).1.twoFingerMoved = s.twoFingerMoved ∧
    (sendPlannedMove s geo).1.scrollAnchor = s.scrollAnchor := by
  unfold sendPlannedMove
  split
  · exact ⟨rfl, rfl, rfl, rfl, rfl, rfl, rfl, rfl, rfl, rfl, rfl, rfl, rfl,
      rfl, rfl, rfl, rfl, rfl, rfl⟩
  · exact ⟨rfl, rfl, rfl, rfl, rfl, rfl, rfl, rfl, rfl, rfl, rfl, rfl, rfl,
      rfl, rfl, rfl, rfl, rfl, rfl⟩

/-- The state component of _sendPlannedMove is the input state with only
absPos (possibly) changed. -/
theorem sendPlannedMove_fst (s : MState) (geo : Option Geo) :
    (sendPlannedMove s geo).1 =
      { s with absPos := (sendPlannedMove s geo).1.absPos } := by
  unfold sendPlannedMove
  split
  · rfl
  · rfl

/-- _sendPlannedMove never emits a button or a wheel. -/
theorem sendPlannedMove_emits (s : MState) (geo : Option Geo) :
    ∀ h ∈ (sendPlannedMove s geo).2, ¬ Hid.isButton h ∧ ¬ Hid.isWheel h := by
  unfold sendPlannedMove
  split
  · intro h hmem
    simp only [List.mem_singleton] at hmem
    subst hmem
    exact ⟨fun hb => hb, fun hw => hw⟩
  · intro h hmem
    exact absurd hmem (List.not_mem_nil _)

/-- In relative mode _sendPlannedMove is a complete no-op. -/
theorem sendPlannedMove_relative (s : MState) (geo : Option Geo)
    (hm : s.mode = Mode.relative) : sendPlannedMove s geo = (s, []) := by
  unfold sendPlannedMove
  split
  · simp_all
  · rfl

/-- relDelta with zero floored deltas: no frame, anchor re-set. -/
theorem relDelta_zero (s : MState) (pos a : Pos) (h : s.relTouchStart = some a)
    (hx : ⌊(pos.x - a.x) * s.sensitivity⌋ = 0)
    (hy : ⌊(pos.y - a.y) * s.sensitivity⌋ = 0) :
    relDelta s pos = ({ s with relTouchStart := some pos }, []) := by
  unfold relDelta
  rw [h]
  simp only [hx, hy]
  norm_num

/-- The threshold phase of a one-finger move never emits a relative-move
frame and leaves mode, sensitivity and the relative anchor untouched. -/
theorem move1Phase1_char (pos : Pos) (s : MState) :
    (move1Phase1 pos s).1.mode = s.mode ∧
    (move1Phase1 pos s).1.sensitivity = s.sensitivity ∧
    (move1Phase1 pos s).1.relTouchStart = s.relTouchStart ∧
    (∀ dx dy, Hid.moveRel dx dy ∉ (move1Phase1 pos s).2) := by
  unfold move1Phase1
  split
  · dsimp only
    split_ifs with h1 h2
    all_goals exact ⟨rfl, rfl, rfl, by intro dx dy hmem; simp at hmem⟩
  · exact ⟨rfl, rfl, rfl, by intro dx dy hmem; simp at hmem⟩

/-- Claim C10: in relative mode (dragging or not), a one-finger move whose
sensitivity-scaled, floored deltas are both zero (so the ±127 clamp also
yields zero) sends no relative-move frame, yet the movement anchor is still
reset to the current position — sub-pixel movement is discarded, not
accumulated. -/
theorem c10_subpixel_discard (s : MState) (pos a : Pos)
    (hm : s.mode = Mode.relative) (hen : s.enabled = true)
    (ha : s.relTouchStart = some a)
    (hx : ⌊(pos.x - a.x) * s.sensitivity⌋ = 0)
    (hy : ⌊(pos.y - a.y) * s.sensitivity⌋ = 0) :
    (∀ dx dy, Hid.moveRel dx dy ∉ (mstep s (MEvent.move1 pos false)).2) ∧
    (mstep s (MEvent.move1 pos false)).1.relTouchStart = some pos := by
  have hph := move1Phase1_char pos s
  have hmode : ¬((move1Phase1 pos s).1.mode = Mode.absolute) := by
    rw [hph.1, hm]
    simp
  have hrd : relDelta (move1Phase1 pos s).1 pos =
      ({ (move1Phase1 pos s).1 with relTouchStart := some pos }, []) := by
    apply relDelta_zero _ _ a
    · rw [hph.2.2.1]
      exact ha
    · rw [hph.2.1]
      exact hx
    · rw [hph.2.1]
      exact hy
  simp only [mstep, handleMove1]
  rw [if_neg (by simp [hen])]
  split_ifs with hd
  all_goals
    rw [hrd]
    refine ⟨fun dx dy hmem => ?_, rfl⟩
    rw [List.append_nil] at hmem
    exact hph.2.2.2 dx dy hmem

/-- Witness for c10_subpixel_discard: relative mode, anchor (0,0), moving to
(1/2, −1/3) at sensitivity 1 floors to (0, −1)... chosen instead at
(1/2, 1/3): both deltas floor to 0. -/
theorem c10_subpixel_discard_witness :
    (∀ dx dy, Hid.moveRel dx dy ∉
      (mstep { minit Mode.relative with relTouchStart := some ⟨0, 0⟩ }
        (MEvent.move1 ⟨1/2, 1/3⟩ false)).2) ∧
    (mstep { minit Mode.relative with relTouchStart := some ⟨0, 0⟩ }
      (MEvent.move1 ⟨1/2, 1/3⟩ false)).1.relTouchStart = some ⟨1/2, 1/3⟩ :=
  c10_subpixel_discard _ ⟨1/2, 1/3⟩ ⟨0, 0⟩ rfl rfl rfl
    (by norm_num [minit]) (by norm_num [minit])

end KvmdTablet

namespace KvmdTablet

/-- Claim C6: a standalone single tap (released under the 200 ms tap
duration, unmoved, not the held second tap of a double-tap, no long press
fired).  In absolute mode the touchend emits no button event and only
records the tap (lastTapTime/lastTapPos) for double-tap matching, leaving
the deferred-click timer untouched; in relative mode it additionally
schedules exactly one deferred left-click at t + 300 ms (the double-tap
window) and emits nothing; firing that timer emits exactly one left-click
pulse and clears it; and a second tap landing within the window and within
2×TAP_MAX_DISTANCE cancels the pending timer without any button emission. -/
theorem c6_single_tap :
    (∀ (s : MState) (c : ℕ) (t : ℚ) (geo : Option Geo) (p : Pos),
      s.enabled = true → s.mode = Mode.absolute → s.isDragging = false →
      s.isSecondTapDown = false → s.longPressFired = false →
      s.touchMoved = false → t - s.touchStartTime < 200 → 1 ≤ c →
      s.touchStartPos = some p →
      (∀ h ∈ (mstep s (MEvent.touchEnd 0 c t false geo)).2, ¬ Hid.isButton h) ∧
      (mstep s (MEvent.touchEnd 0 c t false geo)).1.lastTapTime = t ∧
      (mstep s (MEvent.touchEnd 0 c t false geo)).1.lastTapPos = some p ∧
      (mstep s (MEvent.touchEnd 0 c t false geo)).1.singleTapTimer = s.singleTapTimer) ∧
    (∀ (s : MState) (c : ℕ) (t : ℚ) (geo : Option Geo) (p : Pos),
      s.enabled = true → s.mode = Mode.relative → s.isDragging = false →
      s.isSecondTapDown = false → s.longPressFired = false →
      s.twoFingerTapDetected = false →
      s.touchMoved = false → t - s.touchStartTime < 200 → 1 ≤ c →
      s.touchStartPos = some p →
      (mstep s (MEvent.touchEnd 0 c t false geo)).2 = [] ∧
      (mstep s (MEvent.touchEnd 0 c t false geo)).1.lastTapTime = t ∧
      (mstep s (MEvent.touchEnd 0 c t false geo)).1.lastTapPos = some p ∧
      (mstep s (MEvent.touchEnd 0 c t false geo)).1.singleTapTimer = some (t + 300)) ∧
    (∀ (s : MState) (t d : ℚ), s.singleTapTimer = some d → d ≤ t →
      (mstep s (MEvent.fireSingleTap t)).2 =
        [Hid.buttonDown "left", Hid.buttonUp "left"] ∧
      (mstep s (MEvent.fireSingleTap t)).1.singleTapTimer = none) ∧
    (∀ (s : MState) (pos : Pos) (t : ℚ) (geo : Option Geo) (lp : Pos),
      s.enabled = true → s.lastTapTime ≠ 0 → t - s.lastTapTime < 300 →
      s.lastTapPos = some lp → distSq pos lp < 20 ^ 2 →
      (mstep s (MEvent.start1 pos t false geo)).1.singleTapTimer = none ∧
      (∀ h ∈ (mstep s (MEvent.start1 pos t false geo)).2, ¬ Hid.isButton h)) := by
  refine ⟨?_, ?_, ?_, ?_⟩
  · intro s c t geo p hen hm hd h2nd hlpf hmov hlt hc hpos
    simp only [mstep, handleEnd]
    rw [if_neg (by simp [hen])]
    rw [sendPlannedMove_fst]
    simp [processTap, resetState, hm, hd, h2nd, hlpf, hmov, hpos, hlt, hc]
    exact fun h hmem => (sendPlannedMove_emits _ _ h hmem).1
  · intro s c t geo p hen hm hd h2nd hlpf htf hmov hlt hc hpos
    have hrel := sendPlannedMove_relative { s with longPressTimer := none } geo hm
    simp only [mstep, handleEnd]
    rw [if_neg (by simp [hen])]
    rw [hrel]
    simp [processTap, resetState, hm, hd, h2nd, hlpf, hmov, hpos, htf, hlt, hc]
  · intro s t d hst hd
    have h1 : mstep s (MEvent.fireSingleTap t) =
        (if d ≤ t then
          ({ s with singleTapTimer := none, lastTapTime := 0, lastTapPos := none },
           [Hid.buttonDown "left", Hid.buttonUp "left"])
         else (s, [])) := by
      simp only [mstep, fireSingleTapTimer, hst]
    rw [h1, if_pos hd]
    exact ⟨rfl, rfl⟩
  · intro s pos t geo lp hen h0 hw hlp hdist
    have hsecond : (match s.lastTapPos with
        | some lp' => decide (s.lastTapTime ≠ 0) &&
            decide (t - s.lastTapTime < 300) && decide (distSq pos lp' < 20 ^ 2)
        | none => false) = true := by
      rw [hlp]
      simp [h0, hw, hdist]
    simp only [mstep, handleStart1]
    rw [if_neg (by simp [hen])]
    rw [hsecond]
    rw [if_pos rfl]
    unfold startFinish
    split_ifs with hmo
    · refine ⟨?_, fun h hmem => (sendPlannedMove_emits _ geo h hmem).1⟩
      rw [(sendPlannedMove_proj _ geo).2.2.2.2.2.2.2.2.2.1]
    · exact ⟨rfl, fun h hmem => absurd hmem (List.not_mem_nil _)⟩

/-- Witness for C6 at concrete states: an absolute-mode tap at (5,5)
released at t = 100 emits no button, records the tap and leaves the deferred
timer unset; a relative-mode tap schedules the deferred click for t + 300;
the deferred timer firing at 450 ≥ 400 emits the left pulse; and a second
tap at (3,4) within 300 ms and 20 px of the recorded (0,0) cancels the timer
without a button. -/
theorem c6_single_tap_witness :
    ((∀ h ∈ (mstep { minit Mode.absolute with touchStartPos := some ⟨5, 5⟩ }
        (MEvent.touchEnd 0 1 100 false none)).2, ¬ Hid.isButton h) ∧
      (mstep { minit Mode.absolute with touchStartPos := some ⟨5, 5⟩ }
        (MEvent.touchEnd 0 1 100 false none)).1.lastTapTime = 100 ∧
      (mstep { minit Mode.absolute with touchStartPos := some ⟨5, 5⟩ }
        (MEvent.touchEnd 0 1 100 false none)).1.lastTapPos = some ⟨5, 5⟩ ∧
      (mstep { minit Mode.absolute with touchStartPos := some ⟨5, 5⟩ }
        (MEvent.touchEnd 0 1 100 false none)).1.singleTapTimer = none) ∧
    ((mstep { minit Mode.relative with touchStartPos := some ⟨5, 5⟩ }
        (MEvent.touchEnd 0 1 100 false none)).2 = [] ∧
      (mstep { minit Mode.relative with touchStartPos := some ⟨5, 5⟩ }
        (MEvent.touchEnd 0 1 100 false none)).1.singleTapTimer =
        some (100 + 300)) ∧
    ((mstep { minit Mode.relative with singleTapTimer := some 400 }
        (MEvent.fireSingleTap 450)).2 =
        [Hid.buttonDown "left", Hid.buttonUp "left"] ∧
      (mstep { minit Mode.relative with singleTapTimer := some 400 }
        (MEvent.fireSingleTap 450)).1.singleTapTimer = none) ∧
    ((mstep { minit Mode.relative with lastTapTime := 100,
                                       lastTapPos := some ⟨0, 0⟩,
                                       singleTapTimer := some 400 }
        (MEvent.start1 ⟨3, 4⟩ 250 false none)).1.singleTapTimer = none ∧
      (∀ h ∈ (mstep { minit Mode.relative with lastTapTime := 100,
                                               lastTapPos := some ⟨0, 0⟩,
                                               singleTapTimer := some 400 }
        (MEvent.start1 ⟨3, 4⟩ 250 false none)).2, ¬ Hid.isButton h)) :=
  ⟨c6_single_tap.1 _ 1 100 none ⟨5, 5⟩ rfl rfl rfl rfl rfl rfl
      (by norm_num [minit]) (by norm_num) rfl,
   ⟨(c6_single_tap.2.1 _ 1 100 none ⟨5, 5⟩ rfl rfl rfl rfl rfl rfl rfl
      (by norm_num [minit]) (by norm_num) rfl).1,
    (c6_single_tap.2.1 _ 1 100 none ⟨5, 5⟩ rfl rfl rfl rfl rfl rfl rfl
      (by norm_num [minit]) (by norm_num) rfl).2.2.2⟩,
   c6_single_tap.2.2.1 _ 450 400 rfl (by norm_num),
   c6_single_tap.2.2.2 _ ⟨3, 4⟩ 250 none ⟨0, 0⟩ rfl
      (by norm_num [minit]) (by norm_num [minit]) rfl
      (by norm_num [distSq])⟩

/-- Claim C4 (amended): ending an undecided two-finger sequence is a no-op
on the ZoomController's output state — with neither pinch nor pan active,
_handleTouchEnd preserves scale, translation and zoomed — and a two-finger
move that leaves the classification undecided changes nothing at all.  The
original claim's "no HID event is emitted" is refuted by the quick
two-finger-tap right-click of the MouseHandler (see the counterexample). -/
theorem c4_undecided_noop :
    (∀ (s : ZState) (v : ZView), s.isPinching = false → s.isPanning = false →
      (zstep s (ZEvent.endBelow2 v)).scale = s.scale ∧
      (zstep s (ZEvent.endBelow2 v)).translateX = s.translateX ∧
      (zstep s (ZEvent.endBelow2 v)).translateY = s.translateY ∧
      (zstep s (ZEvent.endBelow2 v)).zoomed = s.zoomed) ∧
    (∀ (s : ZState) (t : ZTouch) (v : ZView), s.gestureUndecided = true →
      (zstep s (ZEvent.move2 t v)).gestureUndecided = true →
      zstep s (ZEvent.move2 t v) = s) := by
  constructor
  · intro s v hpinch hpan
    simp [zstep, handleZEnd, hpinch, hpan]
  · intro s t v h h2
    have hcond : ¬(s.gestureUndecided = false ∧ s.isPinching = false ∧
        s.isScroll = false ∧ s.isPanning = false) := by simp [h]
    by_cases hu : (classifyZ t v s).gestureUndecided = true
    · have he : zstep s (ZEvent.move2 t v) = classifyZ t v s := by
        simp only [zstep, handleZMove2]
        rw [if_neg hcond]
        rw [if_pos hu]
      rw [he]
      exact classifyZ_of_stay t v s h hu
    · exfalso
      have hg : (zstep s (ZEvent.move2 t v)).gestureUndecided =
          (classifyZ t v s).gestureUndecided := by
        simp only [zstep, handleZMove2]
        rw [if_neg hcond]
        rw [if_neg hu]
        split_ifs <;> simp [panUpdate, pinchUpdate, clampTranslation]
      rw [hg] at h2
      exact hu h2

/-- Witness for C4 at concrete states: a touchend on the fresh (unclassified)
controller changes no zoom output state; and a two-finger move that repeats
the start touch exactly leaves the post-touchstart undecided state
untouched. -/
theorem c4_undecided_noop_witness :
    ((zstep zinit (ZEvent.endBelow2 ⟨400, 300, 0, 0⟩)).scale = zinit.scale ∧
      (zstep zinit (ZEvent.endBelow2 ⟨400, 300, 0, 0⟩)).translateX =
        zinit.translateX ∧
      (zstep zinit (ZEvent.endBelow2 ⟨400, 300, 0, 0⟩)).translateY =
        zinit.translateY ∧
      (zstep zinit (ZEvent.endBelow2 ⟨400, 300, 0, 0⟩)).zoomed =
        zinit.zoomed) ∧
    zstep (zrun zinit [ZEvent.start2 ⟨100, 50, 60⟩])
        (ZEvent.move2 ⟨100, 50, 60⟩ ⟨400, 300, 0, 0⟩) =
      zrun zinit [ZEvent.start2 ⟨100, 50, 60⟩] :=
  ⟨c4_undecided_noop.1 zinit ⟨400, 300, 0, 0⟩ rfl rfl,
   c4_undecided_noop.2 _ ⟨100, 50, 60⟩ ⟨400, 300, 0, 0⟩ rfl
      (by norm_num [zrun, zstep, handleZStart2, handleZMove2, classifyZ,
        zinit, pinchThreshold, List.foldl, sub_self, abs_zero])⟩

/-- Claim C4 counterexample: a quick two-finger tap leaves the
ZoomController classification undecided from touchstart to release, yet the
MouseHandler emits a right-click pulse for that same sequence — an undecided
two-finger sequence is not HID-silent. -/
theorem c4_counterexample :
    (zrun zinit [ZEvent.start2 ⟨100, 50, 60⟩]).gestureUndecided = true ∧
    (zrun zinit [ZEvent.start2 ⟨100, 50, 60⟩]).isPinching = false ∧
    (zrun zinit [ZEvent.start2 ⟨100, 50, 60⟩]).isPanning = false ∧
    (zrun zinit [ZEvent.start2 ⟨100, 50, 60⟩]).isScroll = false ∧
    (mrun (minit Mode.relative)
        [MEvent.start2 ⟨0, 0⟩ ⟨0, 0, 0, 0⟩ false 1 0 false none,
         MEvent.touchEnd 0 2 100 false none]).2 =
      [Hid.buttonDown "right", Hid.buttonUp "right"] := by
  refine ⟨rfl, rfl, rfl, rfl, ?_⟩
  have hmode : (Mode.relative = Mode.absolute) = False := by simp
  norm_num [mrun, mstep, handleStart2, handleEnd, sendPlannedMove,
    resetState, processTap, minit, List.foldl, hmode]

/-- Folding the emission-accumulating step of mrun from an arbitrary
accumulator prefixes the accumulator onto the run's emissions. -/
theorem mrun_go (evs : List MEvent) : ∀ (s : MState) (acc : List Hid),
    List.foldl (fun a e =>
      let r := mstep a.1 e
      (r.1, a.2 ++ r.2)) (s, acc) evs =
      ((mrun s evs).1, acc ++ (mrun s evs).2) := by
  induction evs with
  | nil => intro s acc; simp [mrun]
  | cons e tl ih =>
      intro s acc
      simp only [mrun, List.foldl_cons]
      rw [ih, ih]
      simp

/-- Unfolding one event of a MouseHandler run. -/
theorem mrun_cons (s : MState) (e : MEvent) (evs : List MEvent) :
    mrun s (e :: evs) =
      ((mrun (mstep s e).1 evs).1,
        (mstep s e).2 ++ (mrun (mstep s e).1 evs).2) := by
  simp only [mrun, List.foldl_cons]
  rw [mrun_go]
  simp
  exact ⟨rfl, rfl⟩

/-- Splitting a MouseHandler run across an append. -/
theorem mrun_append (s : MState) (l1 l2 : List MEvent) :
    mrun s (l1 ++ l2) =
      ((mrun (mrun s l1).1 l2).1,
        (mrun s l1).2 ++ (mrun (mrun s l1).1 l2).2) := by
  induction l1 generalizing s with
  | nil =>
      have hnil : mrun s [] = (s, []) := rfl
      simp [hnil]
  | cons e tl ih =>
      simp only [List.cons_append, mrun_cons, ih]
      simp [List.append_assoc]

/-- A two-finger move inside the 5 px dead zone of the scroll anchor is a
complete no-op (the planned absolute position is already clear). -/
theorem move2_deadzone (s : MState) (mid p : Pos)
    (hen : s.enabled = true) (ha : s.scrollAnchor = some mid)
    (habs : s.absPos = none)
    (hx : |p.x - mid.x| ≤ 5) (hy : |p.y - mid.y| ≤ 5) :
    mstep s (MEvent.move2 p false) = (s, []) := by
  have hs : ({ s with absPos := none } : MState) = s := by rw [← habs]
  simp only [mstep, handleMove2]
  rw [if_neg (by simp [hen])]
  simp only [ha]
  rw [if_neg (by rw [not_or]; exact ⟨not_lt.2 hy, not_lt.2 hx⟩)]
  rw [← ha, hs]

/-- A two-finger move either does nothing (beyond clearing the planned
absolute position) or emits one wheel, marking movement and dropping the
two-finger-tap candidacy. -/
theorem handleMove2_char (s : MState) (p : Pos) (hen : s.enabled = true) :
    mstep s (MEvent.move2 p false) = ({ s with absPos := none }, []) ∨
    ∃ wx wy, mstep s (MEvent.move2 p false) =
      ({ s with twoFingerMoved := true, twoFingerTapDetected := false,
                scrollAnchor := some p, absPos := none },
       [Hid.wheel wx wy]) := by
  simp only [mstep, handleMove2]
  rw [if_neg (by simp [hen])]
  cases ha : s.scrollAnchor with
  | none => left; simp only [ha]
  | some a =>
      simp only [ha]
      by_cases h1 : |p.y - a.y| > 5 ∨ |p.x - a.x| > 5
      · right
        rw [if_pos h1]
        exact ⟨_, _, rfl⟩
      · left
        rw [if_neg h1]

/-- A run of two-finger moves that all stay inside the dead zone of the
current scroll anchor is a complete no-op. -/
theorem mrun_moves2_inzone (moves : List MEvent) : ∀ (s : MState) (mid : Pos),
    s.enabled = true → s.scrollAnchor = some mid → s.absPos = none →
    (∀ m ∈ moves, ∃ p : Pos, m = MEvent.move2 p false ∧
      |p.x - mid.x| ≤ 5 ∧ |p.y - mid.y| ≤ 5) →
    mrun s moves = (s, []) := by
  induction moves with
  | nil => intro s mid _ _ _ _; rfl
  | cons e tl ih =>
      intro s mid hen ha habs hall
      obtain ⟨p, hp, hx, hy⟩ := hall e (List.mem_cons_self e tl)
      subst hp
      rw [mrun_cons, move2_deadzone s mid p hen ha habs hx hy]
      simp [ih s mid hen ha habs (fun m hm => hall m (List.mem_cons_of_mem _ hm))]

/-- A run of arbitrary two-finger moves (no zoom gesture) emits only wheels,
preserves the one-finger bookkeeping and the timers, keeps the
two-finger-tap candidacy monotone, and drops the candidacy as soon as
anything is emitted. -/
theorem mrun_moves2 (moves : List MEvent) : ∀ (s : MState),
    s.enabled = true →
    (∀ m ∈ moves, ∃ p : Pos, m = MEvent.move2 p false) →
    (mrun s moves).1.mode = s.mode ∧
    (mrun s moves).1.enabled = true ∧
    (mrun s moves).1.touchStartPos = s.touchStartPos ∧
    (mrun s moves).1.isDragging = s.isDragging ∧
    (mrun s moves).1.isSecondTapDown = s.isSecondTapDown ∧
    (mrun s moves).1.longPressFired = s.longPressFired ∧
    (mrun s moves).1.singleTapTimer = s.singleTapTimer ∧
    (mrun s moves).1.longPressTimer = s.longPressTimer ∧
    (mrun s moves).1.dragHoldTimer = s.dragHoldTimer ∧
    (∀ h ∈ (mrun s moves).2, Hid.isWheel h) ∧
    ((mrun s moves).1.twoFingerTapDetected = true →
      s.twoFingerTapDetected = true) ∧
    ((mrun s moves).2 ≠ [] →
      (mrun s moves).1.twoFingerTapDetected = false) := by
  induction moves with
  | nil =>
      intro s hen _
      have hnil : mrun s [] = (s, []) := rfl
      rw [hnil]
      exact ⟨rfl, hen, rfl, rfl, rfl, rfl, rfl, rfl, rfl,
        fun h hmem => absurd hmem (List.not_mem_nil _),
        fun h => h, fun h => absurd rfl h⟩
  | cons e tl ih =>
      intro s hen hall
      obtain ⟨p, hp⟩ := hall e (List.mem_cons_self e tl)
      subst hp
      rw [mrun_cons]
      have htl := fun m hm => hall m (List.mem_cons_of_mem _ hm)
      rcases handleMove2_char s p hen with hc | ⟨wx, wy, hc⟩
      · rw [hc]
        have hi := ih { s with absPos := none } hen htl
        simp only [List.nil_append]
        exact ⟨hi.1, hi.2.1, hi.2.2.1, hi.2.2.2.1, hi.2.2.2.2.1,
          hi.2.2.2.2.2.1, hi.2.2.2.2.2.2.1, hi.2.2.2.2.2.2.2.1,
          hi.2.2.2.2.2.2.2.2.1, hi.2.2.2.2.2.2.2.2.2.1,
          hi.2.2.2.2.2.2.2.2.2.2.1, hi.2.2.2.2.2.2.2.2.2.2.2⟩
      · rw [hc]
        have hi := ih { s with twoFingerMoved := true,
                               twoFingerTapDetected := false,
                               scrollAnchor := some p,
                               absPos := none } hen htl
        refine ⟨hi.1, hi.2.1, hi.2.2.1, hi.2.2.2.1, hi.2.2.2.2.1,
          hi.2.2.2.2.2.1, hi.2.2.2.2.2.2.1, hi.2.2.2.2.2.2.2.1,
          hi.2.2.2.2.2.2.2.2.1, ?_, ?_, ?_⟩
        · intro h hmem
          rcases List.mem_cons.1 hmem with hh | hh
          · subst hh; trivial
          · exact hi.2.2.2.2.2.2.2.2.2.1 h hh
        · intro htrue
          exact absurd (hi.2.2.2.2.2.2.2.2.2.2.1 htrue) Bool.false_ne_true
        · intro _
          cases h2 : (mrun { s with twoFingerMoved := true,
                                    twoFingerTapDetected := false,
                                    scrollAnchor := some p,
                                    absPos := none } tl).1.twoFingerTapDetected with
          | false => rfl
          | true =>
              exact absurd (hi.2.2.2.2.2.2.2.2.2.2.1 h2) Bool.false_ne_true

/-- In relative mode, a final touchend while the two-finger tap is still a
candidate (detected, unmoved) and within 200 ms of the two-finger start
emits exactly the right-click pulse. -/
theorem handleEnd_twoFingerTap (s : MState) (c : ℕ) (t : ℚ)
    (geo : Option Geo) (hen : s.enabled = true) (hm : s.mode = Mode.relative)
    (hd : s.isDragging = false) (h2nd : s.isSecondTapDown = false)
    (hlpf : s.longPressFired = false) (htf : s.twoFingerTapDetected = true)
    (htm : s.twoFingerMoved = false) (ht : t - s.twoFingerStartTime < 200) :
    (mstep s (MEvent.touchEnd 0 c t false geo)).2 =
      [Hid.buttonDown "right", Hid.buttonUp "right"] := by
  have hrel := sendPlannedMove_relative { s with longPressTimer := none } geo hm
  simp only [mstep, handleEnd]
  rw [if_neg (by simp [hen])]
  rw [hrel]
  simp [hd, h2nd, hlpf, hm, htf, htm, ht]

/-- In relative mode with no one-finger touch bookkeeping (start position
cleared), a final touchend emits either nothing or the two-finger right-click
pulse — never a wheel and never a left click — emits nothing once the
two-finger-tap candidacy is gone, and leaves the long-press timer cancelled
with the other timers untouched. -/
theorem handleEnd_char (s : MState) (c : ℕ) (t : ℚ) (geo : Option Geo)
    (hen : s.enabled = true) (hm : s.mode = Mode.relative)
    (hd : s.isDragging = false) (h2nd : s.isSecondTapDown = false)
    (hlpf : s.longPressFired = false) (hsp : s.touchStartPos = none) :
    ((mstep s (MEvent.touchEnd 0 c t false geo)).2 = [] ∨
      (mstep s (MEvent.touchEnd 0 c t false geo)).2 =
        [Hid.buttonDown "right", Hid.buttonUp "right"]) ∧
    (s.twoFingerTapDetected = false →
      (mstep s (MEvent.touchEnd 0 c t false geo)).2 = []) ∧
    (mstep s (MEvent.touchEnd 0 c t false geo)).1.singleTapTimer =
      s.singleTapTimer ∧
    (mstep s (MEvent.touchEnd 0 c t false geo)).1.longPressTimer = none ∧
    (mstep s (MEvent.touchEnd 0 c t false geo)).1.dragHoldTimer =
      s.dragHoldTimer := by
  have hrel := sendPlannedMove_relative { s with longPressTimer := none } geo hm
  simp only [mstep, handleEnd]
  rw [if_neg (by simp [hen])]
  rw [hrel]
  simp only [if_pos rfl]
  refine ⟨?_, ?_, ?_, ?_, ?_⟩ <;>
    simp [hd, h2nd, hlpf, hm, hsp, resetState] <;>
    split_ifs <;>
    simp_all [resetState]

/-- A timer-fire event on a state with no pending timer is a no-op. -/
theorem fires_silent (s : MState) (e : MEvent) (hf : isFireEvent e)
    (h1 : s.singleTapTimer = none) (h2 : s.longPressTimer = none)
    (h3 : s.dragHoldTimer = none) :
    mstep s e = (s, []) := by
  cases e with
  | fireSingleTap t => simp [mstep, fireSingleTapTimer, h1]
  | fireLongPress t => simp [mstep, fireLongPressTimer, h2]
  | fireDragHold t => simp [mstep, fireDragHoldTimer, h3]
  | start1 pos t zoom geo => exact hf.elim
  | start2 mid rect zz zs t zoom geo => exact hf.elim
  | move1 pos zoom => exact hf.elim
  | move2 mid zoom => exact hf.elim
  | touchEnd remaining changed t zoom geo => exact hf.elim
  | flushTick geo => exact hf.elim

/-- A run of timer-fire events on a state with no pending timers is a
complete no-op. -/
theorem mrun_fires (fires : List MEvent) : ∀ (s : MState),
    (∀ m ∈ fires, isFireEvent m) →
    s.singleTapTimer = none → s.longPressTimer = none →
    s.dragHoldTimer = none →
    mrun s fires = (s, []) := by
  induction fires with
  | nil => intro s _ _ _ _; rfl
  | cons e tl ih =>
      intro s hall h1 h2 h3
      rw [mrun_cons, fires_silent s e (hall e (List.mem_cons_self e tl)) h1 h2 h3]
      simp [ih s (fun m hm => hall m (List.mem_cons_of_mem _ hm)) h1 h2 h3]

/-- Wheels are not buttons. -/
theorem isWheel_not_isButton (h : Hid) :
    Hid.isWheel h → ¬ Hid.isButton h := by
  cases h <;> first
    | exact fun hw hb => hb
    | exact fun hw hb => hw

/-- A two-finger touchstart in relative mode arms the two-finger-tap
candidacy silently. -/
theorem handleStart2_relative (s : MState) (mid : Pos) (rect : Rect)
    (zz : Bool) (zs t0 : ℚ) (geo : Option Geo)
    (hen : s.enabled = true) (hm : s.mode = Mode.relative) :
    mstep s (MEvent.start2 mid rect zz zs t0 false geo) =
      ({ s with longPressTimer := none, dragHoldTimer := none,
                isSecondTapDown := false, twoFingerStartTime := t0,
                twoFingerMoved := false, twoFingerTapDetected := true,
                scrollAnchor := some mid }, []) := by
  simp only [mstep, handleStart2]
  rw [if_neg (by simp [hen])]
  rw [if_neg (by simp [hm])]

/-- Core of C5 part (a): from an armed two-finger-tap state, dead-zone moves
followed by a release within 200 ms of the two-finger start emit exactly the
right-click pulse. -/
theorem c5a_core (s : MState) (mid : Pos) (t1 : ℚ) (c : ℕ)
    (geo2 : Option Geo) (moves : List MEvent)
    (hen : s.enabled = true) (hm : s.mode = Mode.relative)
    (hd : s.isDragging = false) (h2nd : s.isSecondTapDown = false)
    (hlpf : s.longPressFired = false) (htf : s.twoFingerTapDetected = true)
    (htm : s.twoFingerMoved = false) (ha : s.scrollAnchor = some mid)
    (habs : s.absPos = none) (ht : t1 - s.twoFingerStartTime < 200)
    (hall : ∀ m ∈ moves, ∃ p : Pos, m = MEvent.move2 p false ∧
      |p.x - mid.x| ≤ 5 ∧ |p.y - mid.y| ≤ 5) :
    (mrun s (moves ++ [MEvent.touchEnd 0 c t1 false geo2])).2 =
      [Hid.buttonDown "right", Hid.buttonUp "right"] := by
  rw [mrun_append, mrun_moves2_inzone moves s mid hen ha habs hall]
  rw [mrun_cons]
  have hend := handleEnd_twoFingerTap s c t1 geo2 hen hm hd h2nd hlpf htf htm ht
  simp [hend, mrun]

/-- Core of C5 part (b): from a state with the one-finger bookkeeping and all
timers clear, a scrolling two-finger sequence (one that emitted a wheel)
followed by release and any timer fires emits no button at all. -/
theorem c5b_core (s : MState) (t1 : ℚ) (c : ℕ) (geo2 : Option Geo)
    (moves fires : List MEvent)
    (hen : s.enabled = true) (hm : s.mode = Mode.relative)
    (hd : s.isDragging = false) (h2nd : s.isSecondTapDown = false)
    (hlpf : s.longPressFired = false) (hsp : s.touchStartPos = none)
    (hstt : s.singleTapTimer = none) (hdht : s.dragHoldTimer = none)
    (hmv : ∀ m ∈ moves, ∃ p : Pos, m = MEvent.move2 p false)
    (hf : ∀ m ∈ fires, isFireEvent m)
    (hw : ∃ h ∈ (mrun s
        (moves ++ MEvent.touchEnd 0 c t1 false geo2 :: fires)).2,
      Hid.isWheel h) :
    ∀ h ∈ (mrun s (moves ++ MEvent.touchEnd 0 c t1 false geo2 :: fires)).2,
      ¬ Hid.isButton h := by
  have hms := mrun_moves2 moves s hen hmv
  have hend := handleEnd_char (mrun s moves).1 c t1 geo2 hms.2.1
    (hms.1.trans hm) (hms.2.2.2.1.trans hd) (hms.2.2.2.2.1.trans h2nd)
    (hms.2.2.2.2.2.1.trans hlpf) (hms.2.2.1.trans hsp)
  have hfend := mrun_fires fires
    (mstep (mrun s moves).1 (MEvent.touchEnd 0 c t1 false geo2)).1 hf
    (hend.2.2.1.trans (hms.2.2.2.2.2.2.1.trans hstt))
    hend.2.2.2.1
    (hend.2.2.2.2.trans (hms.2.2.2.2.2.2.2.2.1.trans hdht))
  rw [mrun_append, mrun_cons, hfend] at hw ⊢
  simp only [List.append_nil] at hw ⊢
  have hEM : (mrun s moves).2 ≠ [] := by
    intro hEM
    obtain ⟨h, hmem, hwheel⟩ := hw
    rw [hEM] at hmem
    simp only [List.nil_append] at hmem
    rcases hend.1 with he | he
    · rw [he] at hmem
      simp at hmem
    · rw [he] at hmem
      simp at hmem
      rcases hmem with rfl | rfl
      · exact hwheel.elim
      · exact hwheel.elim
  have hEnd0 := hend.2.1 (hms.2.2.2.2.2.2.2.2.2.2.2 hEM)
  rw [hEnd0]
  simp only [List.append_nil]
  intro h hmem
  exact isWheel_not_isButton h (hms.2.2.2.2.2.2.2.2.2.1 h hmem)

/-- Claim C5 (amended): from a fresh two-finger touchstart in relative mode,
if the midpoint never leaves the 5 px dead zone of the scroll anchor and the
fingers release within 200 ms of the two-finger start, exactly one
right-click pulse (down, then up) is emitted; and such a fresh-start
sequence that scrolls (emits a wheel) emits no button at all, through any
timer fires that follow.  As originally stated the claim fails when a
one-finger touchstart precedes the two-finger contact: the stale single-tap
bookkeeping lets a quick scroll schedule the deferred left click (see the
counterexample). -/
theorem c5_two_finger :
    (∀ (mid : Pos) (rect : Rect) (zz : Bool) (zs t0 t1 : ℚ) (c : ℕ)
        (geo geo2 : Option Geo) (moves : List MEvent),
      (∀ m ∈ moves, ∃ p : Pos, m = MEvent.move2 p false ∧
        |p.x - mid.x| ≤ 5 ∧ |p.y - mid.y| ≤ 5) →
      t1 - t0 < 200 →
      (mrun (minit Mode.relative)
          (MEvent.start2 mid rect zz zs t0 false geo ::
            (moves ++ [MEvent.touchEnd 0 c t1 false geo2]))).2 =
        [Hid.buttonDown "right", Hid.buttonUp "right"]) ∧
    (∀ (mid : Pos) (rect : Rect) (zz : Bool) (zs t0 t1 : ℚ) (c : ℕ)
        (geo geo2 : Option Geo) (moves fires : List MEvent),
      (∀ m ∈ moves, ∃ p : Pos, m = MEvent.move2 p false) →
      (∀ m ∈ fires, isFireEvent m) →
      (∃ h ∈ (mrun (minit Mode.relative)
          (MEvent.start2 mid rect zz zs t0 false geo ::
            (moves ++ MEvent.touchEnd 0 c t1 false geo2 :: fires))).2,
        Hid.isWheel h) →
      ∀ h ∈ (mrun (minit Mode.relative)
          (MEvent.start2 mid rect zz zs t0 false geo ::
            (moves ++ MEvent.touchEnd 0 c t1 false geo2 :: fires))).2,
        ¬ Hid.isButton h) := by
  constructor
  · intro mid rect zz zs t0 t1 c geo geo2 moves hall ht
    rw [mrun_cons,
      handleStart2_relative (minit Mode.relative) mid rect zz zs t0 geo rfl rfl]
    exact c5a_core _ mid t1 c geo2 moves rfl rfl rfl rfl rfl rfl rfl rfl rfl
      ht hall
  · intro mid rect zz zs t0 t1 c geo geo2 moves fires hmv hf hw
    rw [mrun_cons,
      handleStart2_relative (minit Mode.relative) mid rect zz zs t0 geo
        rfl rfl] at hw ⊢
    exact c5b_core _ t1 c geo2 moves fires rfl rfl rfl rfl rfl rfl rfl rfl
      hmv hf hw

/-- Witness for C5 at concrete traces: a fresh two-finger tap with one
dead-zone move released at 100 ms emits exactly the right-click pulse; a
fresh two-finger sequence whose move scrolls (|dy| = 20 > 5) emits no
button. -/
theorem c5_two_finger_witness :
    (mrun (minit Mode.relative)
        [MEvent.start2 ⟨0, 0⟩ ⟨0, 0, 0, 0⟩ false 1 0 false none,
         MEvent.move2 ⟨3, 4⟩ false,
         MEvent.touchEnd 0 2 100 false none]).2 =
      [Hid.buttonDown "right", Hid.buttonUp "right"] ∧
    (∀ h ∈ (mrun (minit Mode.relative)
        [MEvent.start2 ⟨0, 0⟩ ⟨0, 0, 0, 0⟩ false 1 0 false none,
         MEvent.move2 ⟨0, 20⟩ false,
         MEvent.touchEnd 0 2 100 false none]).2, ¬ Hid.isButton h) := by
  constructor
  · exact c5_two_finger.1 ⟨0, 0⟩ ⟨0, 0, 0, 0⟩ false 1 0 100 2 none none
      [MEvent.move2 ⟨3, 4⟩ false]
      (by intro m hm
          rw [List.mem_singleton] at hm
          subst hm
          exact ⟨⟨3, 4⟩, rfl, by norm_num, by norm_num⟩)
      (by norm_num)
  · have hout : (mrun (minit Mode.relative)
        (MEvent.start2 ⟨0, 0⟩ ⟨0, 0, 0, 0⟩ false 1 0 false none ::
          ([MEvent.move2 ⟨0, 20⟩ false] ++
            MEvent.touchEnd 0 2 100 false none :: []))).2 =
        [Hid.wheel 0 2] := by
      have hmode : (Mode.relative = Mode.absolute) = False := by simp
      norm_num [mrun, mstep, handleStart2, handleMove2, handleEnd,
        sendPlannedMove, resetState, processTap, minit, List.foldl, hmode]
    exact c5_two_finger.2 ⟨0, 0⟩ ⟨0, 0, 0, 0⟩ false 1 0 100 2 none none
      [MEvent.move2 ⟨0, 20⟩ false] []
      (by intro m hm
          rw [List.mem_singleton] at hm
          subst hm
          exact ⟨⟨0, 20⟩, rfl⟩)
      (by intro m hm; exact absurd hm (List.not_mem_nil _))
      ⟨Hid.wheel 0 2, by rw [hout]; exact List.mem_singleton.2 rfl, trivial⟩

/-- Claim C5 counterexample: when a one-finger touchstart precedes the
two-finger contact, a quick two-finger scroll (wheel emitted) still passes
the stale single-tap test at release and schedules the deferred left click,
which then fires — a scrolling two-finger sequence does emit a click. -/
theorem c5_counterexample :
    (mrun (minit Mode.relative)
        [MEvent.start1 ⟨0, 0⟩ 0 false none,
         MEvent.start2 ⟨0, 0⟩ ⟨0, 0, 0, 0⟩ false 1 10 false none,
         MEvent.move2 ⟨0, 20⟩ false,
         MEvent.touchEnd 0 2 100 false none,
         MEvent.fireSingleTap 400]).2 =
      [Hid.wheel 0 2, Hid.buttonDown "left", Hid.buttonUp "left"] := by
  have hmode : (Mode.relative = Mode.absolute) = False := by simp
  norm_num [mrun, mstep, handleStart1, startFinish, handleStart2,
    handleMove2, handleEnd, fireSingleTapTimer, sendPlannedMove,
    resetState, processTap, minit, List.foldl, hmode]

end KvmdTablet
